import Mathlib

/-!
Verification of the coil-geometry engine of the kicad circular-layout plugin.

The development shallowly embeds the two Python modules `generator.py` and
`coilgenerator.py` over the real numbers.  Entity strings produced by the
Python code are modelled as structured records carrying exactly the data that
is substituted into the output text; `uuid.uuid4()` is modelled as an external
stream `u : Nat -> Nat` of identifiers that the generation pass consumes in
call order through an explicit counter.  The Python `math.atan2 a b` is the
argument of the complex number `b + a*I` (range `(-pi, pi]`), `math.radians`,
`math.sin`, `math.cos` and `math.sqrt` are the corresponding real functions.
Python integer arithmetic on `layer_count` is modelled over `Nat`; on the
domain `layer_count >= 1` used by every claim this agrees with Python.
-/

namespace CoilGen

open Real

/-- Two-dimensional point, `generator.P2D`. -/
structure P2D where
  x : ℝ
  y : ℝ


/-- Via anchor produced by the via planner, `coilgenerator.Connector`. -/
structure Connector where
  x : ℝ
  y : ℝ
  angle : ℝ


/-- Data of one rendered via entity, `generator.via`. -/
structure ViaEnt where
  pos : P2D
  diameter : ℝ
  drill : ℝ
  padnum : ℕ
  uuid : ℕ


/-- Data of one rendered line entity, `generator.line`. -/
structure LineEnt where
  start : P2D
  stop : P2D
  width : ℝ
  layer : String
  uuid : ℕ


/-- Data of one rendered arc entity, `generator.arc`; `swap` is the
`swap_start_stop` argument (serialization exchanges start and stop when it is
set, everything else is rendered unchanged). -/
structure ArcEnt where
  start : P2D
  mid : P2D
  stop : P2D
  width : ℝ
  layer : String
  swap : Bool
  uuid : ℕ


/-- Data of one rendered pad entity, `generator.pad`. -/
structure PadEnt where
  pid : ℕ
  loc : P2D
  width : ℝ
  height : ℝ
  layer : String
  uuid : ℕ


/-- The five substituted regions of the output template plus the three
container identifiers: the result of `coilgenerator.generate`. -/
structure CoilOutput where
  name : String
  lines : List LineEnt
  arcs : List ArcEnt
  vias : List ViaEnt
  pads : List PadEnt
  uuid1 : ℕ
  uuid2 : ℕ
  uuid3 : ℕ


/-- Forget the identifier of a via entity. -/
def eraseViaUuid (v : ViaEnt) : ViaEnt := ⟨v.pos, v.diameter, v.drill, v.padnum, 0⟩

/-- Forget the identifier of a line entity. -/
def eraseLineUuid (l : LineEnt) : LineEnt := ⟨l.start, l.stop, l.width, l.layer, 0⟩

/-- Forget the identifier of an arc entity. -/
def eraseArcUuid (a : ArcEnt) : ArcEnt := ⟨a.start, a.mid, a.stop, a.width, a.layer, a.swap, 0⟩

/-- Forget the identifier of a pad entity. -/
def erasePadUuid (p : PadEnt) : PadEnt := ⟨p.pid, p.loc, p.width, p.height, p.layer, 0⟩

/-- Forget every identifier of a generated output. -/
def eraseUuids (o : CoilOutput) : CoilOutput :=
  ⟨o.name, o.lines.map eraseLineUuid, o.arcs.map eraseArcUuid,
   o.vias.map eraseViaUuid, o.pads.map erasePadUuid, 0, 0, 0⟩

/-- `math.radians`. -/
noncomputable def radians (deg : ℝ) : ℝ := deg * Real.pi / 180

/-- `math.atan2 a b`: the argument of the complex number with real part `b`
and imaginary part `a`, in `(-pi, pi]`. -/
noncomputable def atan2 (a b : ℝ) : ℝ := Complex.arg ⟨b, a⟩

/-- `generator.get_uuid`: draw the next identifier from the stream. -/
def get_uuid (u : ℕ → ℕ) (c : ℕ) : ℕ × ℕ := (u c, c + 1)

/-- `generator.via`. -/
def via (u : ℕ → ℕ) (c : ℕ) (loc : P2D) (diameter drill : ℝ) (padnum : ℕ) :
    ViaEnt × ℕ :=
  (⟨loc, diameter, drill, padnum, u c⟩, c + 1)

/-- `generator.line`. -/
def line (u : ℕ → ℕ) (c : ℕ) (start stop : P2D) (width : ℝ) (layer : String) :
    LineEnt × ℕ :=
  (⟨start, stop, width, layer, u c⟩, c + 1)

/-- `generator.arc`. -/
def arc (u : ℕ → ℕ) (c : ℕ) (start mid stop : P2D) (width : ℝ) (layer : String)
    (swap_start_stop : Bool) : ArcEnt × ℕ :=
  (⟨start, mid, stop, width, layer, swap_start_stop, u c⟩, c + 1)

/-- `generator.pad`. -/
def pad (u : ℕ → ℕ) (c : ℕ) (pid : ℕ) (loc : P2D) (width height : ℝ)
    (layer : String) : PadEnt × ℕ :=
  (⟨pid, loc, width, height, layer, u c⟩, c + 1)

/-- `generator.loop`: two half-circle arcs forming one full turn, starting at
`radius` and ending at `radius + increment`.  `bool(wrap_multiplier + 1)` is
Python integer truthiness. -/
noncomputable def loop (u : ℕ → ℕ) (c : ℕ) (radius increment width : ℝ)
    (layer : String) (wrap_multiplier : ℤ) : List ArcEnt × ℕ :=
  let a1 := arc u c ⟨radius, 0⟩ ⟨0, -(wrap_multiplier : ℝ) * radius⟩ ⟨-radius, 0⟩
    width layer (decide (wrap_multiplier + 1 ≠ 0))
  let a2 := arc u a1.2 ⟨-radius, 0⟩
    ⟨increment / 2, (wrap_multiplier : ℝ) * (radius + increment / 2)⟩
    ⟨radius + increment, 0⟩ width layer (decide (wrap_multiplier + 1 ≠ 0))
  ([a1.1, a2.1], a2.2)

/-- `coilgenerator.get_angle_degree_of_point`. -/
noncomputable def get_angle_degree_of_point (point : P2D) : ℝ :=
  atan2 point.x point.y * 180 / Real.pi

/-- `coilgenerator.get_point_on_circle`. -/
noncomputable def get_point_on_circle (angle_deg radius : ℝ) : P2D :=
  let a := Real.cos (radians angle_deg) * radius
  let b := Real.sin (radians angle_deg) * radius
  ⟨b, a⟩

/-- `coilgenerator.get_point_radius_reduced`. -/
noncomputable def get_point_radius_reduced (point : P2D) (radius : ℝ) : P2D :=
  let hypotenuse := Real.sqrt (point.x ^ 2 + point.y ^ 2)
  let factor := hypotenuse / radius
  ⟨point.x / factor, point.y / factor⟩

/-- `coilgenerator.get_point_distance`. -/
noncomputable def get_point_distance (point_a point_b : P2D) : ℝ :=
  Real.sqrt ((point_a.x - point_b.x) ^ 2 + (point_a.y - point_b.y) ^ 2)

/-- `coilgenerator.get_angle_degree_between`. -/
noncomputable def get_angle_degree_between (point_a point_b : P2D)
    (clockwise : Bool) : ℝ :=
  let angle_a0 := get_angle_degree_of_point point_a
  let angle_a := if angle_a0 < 0 then 360 + angle_a0 else angle_a0
  let angle_b0 := get_angle_degree_of_point point_b
  let angle_b := if angle_b0 < 0 then 360 + angle_b0 else angle_b0
  let result0 := angle_a - angle_b
  let result1 := if result0 < 0 then 360 + result0 else result0
  let result2 := if !clockwise then 360 - result1 else result1
  if result2 = 360 then 0 else result2

/-- `coilgenerator.get_circle_section_centerpoint`. -/
noncomputable def get_circle_section_centerpoint (point_a point_b : P2D)
    (radius : ℝ) : P2D :=
  let point_a_red := get_point_radius_reduced point_a 1
  let point_b_red := get_point_radius_reduced point_b 1
  let x_new := (point_a_red.x + point_b_red.x) / 2
  let y_new := (point_a_red.y + point_b_red.y) / 2
  let angle_deg := atan2 x_new y_new * 180 / Real.pi
  get_point_on_circle angle_deg radius

/-- `coilgenerator.get_num_vias`.  Python integer division and subtraction
coincide with the `Nat` operations for `layer_count >= 1`. -/
def get_num_vias (layer_count : ℕ) : ℕ × ℕ :=
  let num_vias := layer_count - (1 - layer_count % 2)
  let num_vias_inside := num_vias / 2 + 1
  (num_vias_inside, num_vias_inside - 1)

/-- `coilgenerator.get_via_radius`. -/
noncomputable def get_via_radius (outer_diameter : ℝ) (turns_per_layer : ℕ)
    (trace_width trace_spacing via_diameter : ℝ) : ℝ × ℝ :=
  (outer_diameter / 2 - turns_per_layer * trace_width
      - ((turns_per_layer : ℝ) - 1) * trace_spacing - via_diameter
      - (trace_width + trace_spacing),
   outer_diameter / 2 + via_diameter + 2 * trace_spacing + trace_width)

/-- `coilgenerator.generate_vias`: the loop body appends one connector and one
via per index `v`; the via drawn at index `v` consumes identifier `c + v`. -/
noncomputable def generate_vias (u : ℕ → ℕ) (c : ℕ) (outer_diameter : ℝ)
    (turns_per_layer : ℕ) (trace_width trace_spacing via_diameter via_drill : ℝ)
    (layer_count : ℕ) : List ViaEnt × List Connector × ℕ :=
  let radii := get_via_radius outer_diameter turns_per_layer trace_width
    trace_spacing via_diameter
  let nums := get_num_vias layer_count
  let num_vias_inside := nums.1
  let num_vias_outside := nums.2
  let degree_steps_inside : ℝ := 360 / num_vias_inside
  let degree_steps_outside : ℝ :=
    if num_vias_outside ≠ 0 then 360 / num_vias_outside else 0
  let via_count := num_vias_inside + num_vias_outside
  let odd_layer_count := layer_count % 2
  ((List.range via_count).map (fun v =>
      let via_used_radius := if v % 2 ≠ 0 then radii.2 else radii.1
      let degree_steps_used :=
        if v % 2 ≠ 0 then degree_steps_outside else degree_steps_inside
      let rotation_degree := ((v / 2 : ℕ) : ℝ) * degree_steps_used
      let height := Real.sin (radians rotation_degree) * via_used_radius
      let width0 := Real.sqrt (via_used_radius ^ 2 - height ^ 2)
      let width :=
        if rotation_degree > 90 ∧ rotation_degree < 270 then -width0 else width0
      let padnum := if odd_layer_count = 1 ∧ v = via_count - 1 then 2 else 0
      (⟨⟨width, height⟩, via_diameter, via_drill, padnum, u (c + v)⟩ : ViaEnt)),
   (List.range via_count).map (fun v =>
      let via_used_radius := if v % 2 ≠ 0 then radii.2 else radii.1
      let degree_steps_used :=
        if v % 2 ≠ 0 then degree_steps_outside else degree_steps_inside
      let rotation_degree := ((v / 2 : ℕ) : ℝ) * degree_steps_used
      let height := Real.sin (radians rotation_degree) * via_used_radius
      let width0 := Real.sqrt (via_used_radius ^ 2 - height ^ 2)
      let width :=
        if rotation_degree > 90 ∧ rotation_degree < 270 then -width0 else width0
      (⟨width, height, rotation_degree⟩ : Connector)),
   c + via_count)

/-- `coilgenerator.connect_via`.  The intermediate state is the quadruple
(arcs so far, point closest to the via, its radius, identifier counter). -/
noncomputable def connect_via (u : ℕ → ℕ) (c : ℕ) (end_point_radius : ℝ)
    (loop_end_point : P2D) (loop_increment : ℝ) (layer_name : String)
    (trace_width : ℝ) (inside clockwise : Bool) (arc_connector : Connector)
    (arcs : List ArcEnt) (lines : List LineEnt) :
    List ArcEnt × List LineEnt × ℕ :=
  let MIN_DIRECT_BRIDGE_DISTANCE := 3 * loop_increment
  let target_radius_closest_to_via :=
    if inside then end_point_radius - loop_increment
    else end_point_radius + loop_increment
  let nearest_connector_point :=
    get_point_radius_reduced ⟨arc_connector.x, arc_connector.y⟩
      target_radius_closest_to_via
  let st :=
    if get_point_distance loop_end_point ⟨arc_connector.x, arc_connector.y⟩ ≥
        MIN_DIRECT_BRIDGE_DISTANCE then
      let st1 :=
        if get_angle_degree_between loop_end_point nearest_connector_point
            (inside == clockwise) ≥ 180 then
          let arc_target_radius :=
            if inside then target_radius_closest_to_via
            else target_radius_closest_to_via - loop_increment
          let arc_center_radius :=
            if inside then arc_target_radius + 0.5 * loop_increment
            else arc_target_radius
          let opposite_point :=
            get_point_radius_reduced ⟨-loop_end_point.x, -loop_end_point.y⟩
              arc_target_radius
          let center_point : P2D :=
            if inside != clockwise then ⟨0, -arc_center_radius⟩
            else ⟨0, arc_center_radius⟩
          let a := arc u c loop_end_point center_point opposite_point
            trace_width layer_name (!(clockwise == inside))
          (arcs ++ [a.1], opposite_point, arc_target_radius, a.2)
        else (arcs, loop_end_point, end_point_radius, c)
      let remaining_angle := get_angle_degree_between st1.2.1
        nearest_connector_point (inside == clockwise)
      if remaining_angle ≥ MIN_DIRECT_BRIDGE_DISTANCE then
        let arc_center_radius :=
          (target_radius_closest_to_via - st1.2.2.1) / 2 + st1.2.2.1
        let a := arc u st1.2.2.2 st1.2.1
          (get_circle_section_centerpoint st1.2.1 nearest_connector_point
            arc_center_radius)
          nearest_connector_point trace_width layer_name (!(inside == clockwise))
        (st1.1 ++ [a.1], nearest_connector_point, st1.2.2.1, a.2)
      else st1
    else (arcs, loop_end_point, end_point_radius, c)
  let l := line u st.2.2.2 st.2.1 ⟨arc_connector.x, arc_connector.y⟩
    trace_width layer_name
  (st.1, lines ++ [l.1], l.2)

/-- Body of the per-layer iteration of `coilgenerator.generate_coil_spiral`:
emit the full turns of one layer and connect the layer to its via anchors.
Out-of-range anchor lookups are totalized with a zero connector; the
in-bounds property is proved separately. -/
noncomputable def spiral_layer (u : ℕ → ℕ) (wrap_clockwise : Bool)
    (layer_count : ℕ) (trace_width trace_spacing : ℝ) (turns_per_layer : ℕ)
    (start_radius : ℝ) (layer_names : List String)
    (arc_connectors : List Connector) (layer : ℕ) (arcs : List ArcEnt)
    (lines : List LineEnt) (c : ℕ) : List ArcEnt × List LineEnt × ℝ × ℕ :=
  let wrap_direction_multiplier : ℤ := if wrap_clockwise then 1 else -1
  let increment := trace_width + trace_spacing
  let inverse_turn_mult : ℤ := if layer % 2 ≠ 0 then -1 else 1
  let turns := (List.range turns_per_layer).foldl
    (fun (st : List ArcEnt × ℝ × ℕ) _ =>
      let la := loop u st.2.2 st.2.1 increment trace_width
        (layer_names.getD layer ("")) (wrap_direction_multiplier * inverse_turn_mult)
      (st.1 ++ la.1, st.2.1 + increment, la.2))
    (arcs, start_radius, c)
  let current_radius := turns.2.1
  let first_via_inside := if layer % 2 = 0 then false else true
  let second_via_inside := if layer % 2 = 0 then true else false
  let current_clockwise :=
    if (wrap_clockwise ∧ layer % 2 = 0) ∨ (¬wrap_clockwise ∧ layer % 2 = 1)
    then true else false
  let loop_inner_point : P2D := ⟨start_radius, 0⟩
  let loop_outer_point : P2D := ⟨current_radius, 0⟩
  let r1 :=
    if 0 < layer then
      let end1 := if first_via_inside then (loop_inner_point, start_radius)
        else (loop_outer_point, current_radius)
      connect_via u turns.2.2 end1.2 end1.1 increment
        (layer_names.getD layer ("")) trace_width first_via_inside
        current_clockwise (arc_connectors.getD (layer - 1) ⟨0, 0, 0⟩)
        turns.1 lines
    else (turns.1, lines, turns.2.2)
  let r2 :=
    if layer < layer_count - 1 ∨ layer_count % 2 ≠ 0 then
      let end2 := if second_via_inside then (loop_inner_point, start_radius)
        else (loop_outer_point, current_radius)
      connect_via u r1.2.2 end2.2 end2.1 increment
        (layer_names.getD layer ("")) trace_width second_via_inside
        current_clockwise (arc_connectors.getD layer ⟨0, 0, 0⟩) r1.1 r1.2.1
    else r1
  (r2.1, r2.2.1, current_radius, r2.2.2)

/-- `coilgenerator.generate_coil_spiral`. -/
noncomputable def generate_coil_spiral (u : ℕ → ℕ) (wrap_clockwise : Bool)
    (layer_count : ℕ) (trace_width trace_spacing : ℝ) (turns_per_layer : ℕ)
    (outer_diameter : ℝ) (layer_names : List String)
    (arc_connectors : List Connector) (c : ℕ) :
    List ArcEnt × List LineEnt × ℝ × ℕ :=
  let start_radius := outer_diameter / 2 - turns_per_layer * trace_width
    - ((turns_per_layer : ℝ) - 1) * trace_spacing
  (List.range layer_count).foldl
    (fun st layer =>
      spiral_layer u wrap_clockwise layer_count trace_width trace_spacing
        turns_per_layer start_radius layer_names arc_connectors layer
        st.1 st.2.1 st.2.2.2)
    ([], [], start_radius, c)

/-- `coilgenerator.BREAKOUT_LEN`. -/
noncomputable def BREAKOUT_LEN : ℝ := 0.5

/-- `coilgenerator.generate_pads`. -/
noncomputable def generate_pads (u : ℕ → ℕ) (c : ℕ) (lines : List LineEnt)
    (outer_radius trace_width via_diameter : ℝ) (clockwise : Bool)
    (layer_count : ℕ) (top_layer_name bottom_layer_name : String) :
    List LineEnt × List PadEnt × ℕ :=
  let wrap_direction_multiplier : ℤ := if clockwise then 1 else -1
  let top_pad_center_point : P2D :=
    ⟨outer_radius + BREAKOUT_LEN + 4 * trace_width,
     (BREAKOUT_LEN + 0.5 * via_diameter + trace_width) *
       -(wrap_direction_multiplier : ℝ)⟩
  let bottom_pad_center_point : P2D :=
    ⟨outer_radius + BREAKOUT_LEN + 4 * trace_width,
     (BREAKOUT_LEN + 0.5 * via_diameter + trace_width) *
       (wrap_direction_multiplier : ℝ)⟩
  let l1 := line u c ⟨outer_radius, 0⟩ ⟨outer_radius, top_pad_center_point.y⟩
    trace_width top_layer_name
  let l2 := line u l1.2 ⟨outer_radius, top_pad_center_point.y⟩
    ⟨top_pad_center_point.x - 3 * trace_width, top_pad_center_point.y⟩
    trace_width top_layer_name
  let lines := lines ++ [l1.1, l2.1]
  let bottom := 1 < layer_count ∧ layer_count % 2 = 0
  let r1 :=
    if bottom then
      let l3 := line u l2.2 ⟨outer_radius, 0⟩
        ⟨outer_radius, bottom_pad_center_point.y⟩ trace_width bottom_layer_name
      let l4 := line u l3.2 ⟨outer_radius, bottom_pad_center_point.y⟩
        ⟨bottom_pad_center_point.x - 3 * trace_width, bottom_pad_center_point.y⟩
        trace_width bottom_layer_name
      (lines ++ [l3.1, l4.1], l4.2)
    else (lines, l2.2)
  let p1 := pad u r1.2 1 top_pad_center_point (8 * trace_width) trace_width
    top_layer_name
  let r2 :=
    if bottom then
      let p2 := pad u p1.2 2 bottom_pad_center_point (8 * trace_width)
        trace_width bottom_layer_name
      ([p1.1, p2.1], p2.2)
    else ([p1.1], p1.2)
  (r1.1, r2.1, r2.2)

/-- `coilgenerator.generate`: the record stands for the template text with the
five regions and three container identifiers substituted. -/
noncomputable def generate (u : ℕ → ℕ) (layer_count : ℕ) (wrap_clockwise : Bool)
    (turns_per_layer : ℕ)
    (trace_width trace_spacing via_diameter via_drill outer_diameter : ℝ)
    (coil_name : String) (layer_names : List String) : CoilOutput :=
  let r1 := generate_vias u 0 outer_diameter turns_per_layer trace_width
    trace_spacing via_diameter via_drill layer_count
  let r2 := generate_coil_spiral u wrap_clockwise layer_count trace_width
    trace_spacing turns_per_layer outer_diameter layer_names r1.2.1 r1.2.2
  let r3 := generate_pads u r2.2.2.2 r2.2.1 r2.2.2.1 trace_width via_diameter
    wrap_clockwise layer_count (layer_names.getD 0 (""))
    (layer_names.getD (layer_count - 1) (""))
  let u1 := get_uuid u r3.2.2
  let u2 := get_uuid u u1.2
  let u3 := get_uuid u u2.2
  ⟨coil_name, r3.1, r2.1, r1.1, r3.2.1, u1.1, u2.1, u3.1⟩

/-- The anchor indices that layer `layer` passes to `connect_via`, read off
the two guards at lines 142 and 152 of `generate_coil_spiral`. -/
def connectorCallIndices (layer_count layer : ℕ) : List ℕ :=
  (if 0 < layer then [layer - 1] else []) ++
  (if layer < layer_count - 1 ∨ layer_count % 2 ≠ 0 then [layer] else [])

/-! ### Geometry helper lemmas -/

theorem radians_mem_Ioc {θ : ℝ} (h1 : -180 < θ) (h2 : θ ≤ 180) :
    radians θ ∈ Set.Ioc (-Real.pi) Real.pi := by
  constructor
  · rw [radians]
    nlinarith [mul_pos (show (0:ℝ) < θ + 180 by linarith) Real.pi_pos]
  · rw [radians]
    nlinarith [mul_nonneg (show (0:ℝ) ≤ 180 - θ by linarith) Real.pi_pos.le]

theorem angleOf_pc (θ r : ℝ) (h1 : -180 < θ) (h2 : θ ≤ 180) (hr : 0 < r) :
    get_angle_degree_of_point (get_point_on_circle θ r) = θ := by
  have hpi := Real.pi_pos
  have key : Complex.arg ⟨Real.cos (radians θ) * r, Real.sin (radians θ) * r⟩
      = radians θ := by
    have heq : (⟨Real.cos (radians θ) * r, Real.sin (radians θ) * r⟩ : ℂ)
        = (r : ℂ) * (Complex.cos (radians θ) + Complex.sin (radians θ) *
            Complex.I) := by
      apply Complex.ext <;>
        simp [Complex.cos_ofReal_re, Complex.sin_ofReal_re, mul_comm]
    rw [heq, Complex.arg_mul_cos_add_sin_mul_I hr (radians_mem_Ioc h1 h2)]
  rw [get_angle_degree_of_point, get_point_on_circle, atan2]
  simp only
  rw [key, radians]
  field_simp

theorem reduce_pc (θ : ℝ) {r : ℝ} (t : ℝ) (hr : 0 < r) :
    get_point_radius_reduced (get_point_on_circle θ r) t
      = get_point_on_circle θ t := by
  rw [get_point_radius_reduced, get_point_on_circle, get_point_on_circle]
  simp only
  have hsq : Real.sin (radians θ) * r ^ 2 * Real.sin (radians θ)
      + Real.cos (radians θ) * r ^ 2 * Real.cos (radians θ) = r ^ 2 := by
    nlinarith [Real.sin_sq_add_cos_sq (radians θ)]
  have hs : Real.sqrt ((Real.sin (radians θ) * r) ^ 2
      + (Real.cos (radians θ) * r) ^ 2) = r := by
    rw [show (Real.sin (radians θ) * r) ^ 2 + (Real.cos (radians θ) * r) ^ 2
        = r ^ 2 by nlinarith [Real.sin_sq_add_cos_sq (radians θ)]]
    exact Real.sqrt_sq hr.le
  rw [hs]
  rcases eq_or_ne t 0 with rfl | ht
  · simp
  · have hf : r / t ≠ 0 := div_ne_zero hr.ne' ht
    simp only [P2D.mk.injEq]
    constructor <;>
      · rw [div_div_eq_mul_div, mul_right_comm, mul_div_assoc,
          div_self hr.ne', mul_one]

theorem pc_0 (r : ℝ) : get_point_on_circle 0 r = ⟨0, r⟩ := by
  rw [get_point_on_circle]
  simp [radians]

theorem pc_90 (r : ℝ) : get_point_on_circle 90 r = ⟨r, 0⟩ := by
  rw [get_point_on_circle]
  have h : radians 90 = Real.pi / 2 := by rw [radians]; ring
  simp [h, Real.sin_pi_div_two, Real.cos_pi_div_two]

theorem pc_neg90 (r : ℝ) : get_point_on_circle (-90) r = ⟨-r, 0⟩ := by
  rw [get_point_on_circle]
  have h : radians (-90) = -(Real.pi / 2) := by rw [radians]; ring
  simp [h, Real.sin_pi_div_two, Real.cos_pi_div_two]

theorem pc_neg30 (r : ℝ) :
    get_point_on_circle (-30) r = ⟨-(r / 2), Real.sqrt 3 / 2 * r⟩ := by
  rw [get_point_on_circle]
  have h : radians (-30) = -(Real.pi / 6) := by rw [radians]; ring
  rw [h]
  simp only [Real.sin_neg, Real.cos_neg, Real.sin_pi_div_six,
    Real.cos_pi_div_six, P2D.mk.injEq]
  constructor <;> ring

theorem pc_neg150 (r : ℝ) :
    get_point_on_circle (-150) r = ⟨-(r / 2), -(Real.sqrt 3 / 2 * r)⟩ := by
  rw [get_point_on_circle]
  have h : radians (-150) = -(Real.pi - Real.pi / 6) := by rw [radians]; ring
  rw [h]
  simp only [Real.sin_neg, Real.cos_neg, Real.sin_pi_sub, Real.cos_pi_sub,
    Real.sin_pi_div_six, Real.cos_pi_div_six, P2D.mk.injEq]
  constructor <;> ring

theorem angleOf_pos_x {r : ℝ} (hr : 0 < r) :
    get_angle_degree_of_point ⟨r, 0⟩ = 90 := by
  rw [← pc_90 r]
  exact angleOf_pc 90 r (by norm_num) (by norm_num) hr

theorem angleOf_neg_x {r : ℝ} (hr : 0 < r) :
    get_angle_degree_of_point ⟨-r, 0⟩ = -90 := by
  rw [← pc_neg90 r]
  exact angleOf_pc (-90) r (by norm_num) (by norm_num) hr

/-! ### Via planner helper lemmas -/

theorem via_point_eq_pc {d r : ℝ} (hd0 : 0 ≤ d) (hd1 : d < 360) (hr : 0 ≤ r) :
    (⟨if d > 90 ∧ d < 270
        then -Real.sqrt (r ^ 2 - (Real.sin (radians d) * r) ^ 2)
        else Real.sqrt (r ^ 2 - (Real.sin (radians d) * r) ^ 2),
      Real.sin (radians d) * r⟩ : P2D)
    = get_point_on_circle (90 - d) r := by
  have hpi := Real.pi_pos
  have hrad : radians (90 - d) = Real.pi / 2 - radians d := by
    rw [radians, radians]; ring
  have hx : Real.sin (radians (90 - d)) = Real.cos (radians d) := by
    rw [hrad, Real.sin_pi_div_two_sub]
  have hy : Real.cos (radians (90 - d)) = Real.sin (radians d) := by
    rw [hrad, Real.cos_pi_div_two_sub]
  have hsqrt : Real.sqrt (r ^ 2 - (Real.sin (radians d) * r) ^ 2)
      = r * |Real.cos (radians d)| := by
    rw [show r ^ 2 - (Real.sin (radians d) * r) ^ 2
        = (r * Real.cos (radians d)) ^ 2 by
      nlinarith [Real.sin_sq_add_cos_sq (radians d)]]
    rw [Real.sqrt_sq_eq_abs, abs_mul, abs_of_nonneg hr]
  rw [get_point_on_circle]
  simp only [hx, hy, P2D.mk.injEq]
  refine ⟨?_, trivial⟩
  by_cases hcase : d > 90 ∧ d < 270
  · rw [if_pos hcase, hsqrt]
    have hc : Real.cos (radians d) ≤ 0 := by
      apply Real.cos_nonpos_of_pi_div_two_le_of_le
      · rw [radians]
        nlinarith [mul_nonneg (show (0:ℝ) ≤ d - 90 by linarith [hcase.1])
          Real.pi_pos.le]
      · rw [radians]
        nlinarith [mul_nonneg (show (0:ℝ) ≤ 270 - d by linarith [hcase.2])
          Real.pi_pos.le]
    rw [abs_of_nonpos hc]; ring
  · rw [if_neg hcase, hsqrt]
    have hc : 0 ≤ Real.cos (radians d) := by
      rcases le_or_lt d 90 with h90 | h90
      · apply Real.cos_nonneg_of_mem_Icc
        constructor
        · rw [radians]
          nlinarith [mul_nonneg hd0 Real.pi_pos.le]
        · rw [radians]
          nlinarith [mul_nonneg (show (0:ℝ) ≤ 90 - d by linarith)
            Real.pi_pos.le]
      · have h270 : 270 ≤ d := by
          rcases not_and_or.mp hcase with h | h
          · exact absurd h90 h
          · linarith [not_lt.mp h]
        rw [← Real.cos_sub_two_pi]
        apply Real.cos_nonneg_of_mem_Icc
        constructor
        · rw [radians]
          nlinarith [mul_nonneg (show (0:ℝ) ≤ d - 270 by linarith)
            Real.pi_pos.le]
        · rw [radians]
          nlinarith [mul_nonneg (show (0:ℝ) ≤ 360 - d by linarith)
            Real.pi_pos.le]
    rw [abs_of_nonneg hc]; ring

theorem generate_vias_len (u : ℕ → ℕ) (c : ℕ) (D : ℝ) (T : ℕ) (w s vd dr : ℝ)
    (L : ℕ) :
    ((generate_vias u c D T w s vd dr L).1).length
      = (get_num_vias L).1 + (get_num_vias L).2 := by
  simp [generate_vias]

theorem generate_vias_conns_len (u : ℕ → ℕ) (c : ℕ) (D : ℝ) (T : ℕ)
    (w s vd dr : ℝ) (L : ℕ) :
    ((generate_vias u c D T w s vd dr L).2.1).length
      = (get_num_vias L).1 + (get_num_vias L).2 := by
  simp [generate_vias]

theorem generate_vias_padnum_map (u : ℕ → ℕ) (c : ℕ) (D : ℝ) (T : ℕ)
    (w s vd dr : ℝ) (L : ℕ) :
    ((generate_vias u c D T w s vd dr L).1).map ViaEnt.padnum
      = (List.range ((get_num_vias L).1 + (get_num_vias L).2)).map
          (fun v => if L % 2 = 1 ∧
              v = (get_num_vias L).1 + (get_num_vias L).2 - 1 then 2 else 0) := by
  simp only [generate_vias, List.map_map]
  rfl

theorem range_map_last_tag (n : ℕ) (hn : 1 ≤ n) :
    (List.range n).map (fun v => if v = n - 1 then 2 else 0)
      = List.replicate (n - 1) (0 : ℕ) ++ [2] := by
  obtain ⟨m, rfl⟩ : ∃ m, n = m + 1 := ⟨n - 1, by omega⟩
  rw [List.range_succ, List.map_append]
  simp only [Nat.add_sub_cancel, List.map_cons, List.map_nil, if_pos rfl]
  congr 1
  rw [List.eq_replicate_iff]
  refine ⟨by simp, ?_⟩
  intro b hb
  obtain ⟨v, hv, rfl⟩ := List.mem_map.mp hb
  have hvm : ¬ v = m := by
    have := List.mem_range.mp hv
    omega
  rw [if_neg hvm]

theorem get_num_vias_inside_pos (L : ℕ) : 1 ≤ (get_num_vias L).1 := by
  simp [get_num_vias]

/-- Claim C2 (amended): even via indices go on the inside ring and odd ones
on the outside ring, and the k-th via of a ring sits at the point that
`get_point_on_circle` returns for angle `90 - k * (360 / ringCount)` at the
ring radius, i.e. the reflection across the diagonal of the claimed
`pointOnCircle (k * (360 / ringCount))` point. -/
theorem c2_via_placement (u : ℕ → ℕ) (c : ℕ) (D : ℝ) (T : ℕ) (w s vd dr : ℝ)
    (L v : ℕ) (hv : v < (get_num_vias L).1 + (get_num_vias L).2)
    (hin : 0 ≤ (get_via_radius D T w s vd).1)
    (hout : 0 ≤ (get_via_radius D T w s vd).2) :
    (((generate_vias u c D T w s vd dr L).1).map ViaEnt.pos).getD v ⟨0, 0⟩
      = if v % 2 = 0
        then get_point_on_circle
            (90 - ((v / 2 : ℕ) : ℝ) * (360 / ((get_num_vias L).1 : ℝ)))
            (get_via_radius D T w s vd).1
        else get_point_on_circle
            (90 - ((v / 2 : ℕ) : ℝ) * (360 / ((get_num_vias L).2 : ℝ)))
            (get_via_radius D T w s vd).2 := by
  have hcnt : (get_num_vias L).2 = (get_num_vias L).1 - 1 := rfl
  have hpos : 1 ≤ (get_num_vias L).1 := get_num_vias_inside_pos L
  simp only [generate_vias, List.map_map]
  rw [List.getD_eq_getElem?_getD, List.getElem?_map, List.getElem?_range hv]
  simp only [Option.map_some', Option.getD_some, Function.comp_apply]
  by_cases hpar : v % 2 = 0
  · have hk : v / 2 < (get_num_vias L).1 := by omega
    have hnr : (0 : ℝ) < ((get_num_vias L).1 : ℝ) := by
      exact_mod_cast Nat.lt_of_lt_of_le Nat.zero_lt_one hpos
    have hd0 : (0 : ℝ) ≤ ((v / 2 : ℕ) : ℝ) * (360 / ((get_num_vias L).1 : ℝ)) :=
      mul_nonneg (Nat.cast_nonneg _) (div_nonneg (by norm_num) hnr.le)
    have hd1 : ((v / 2 : ℕ) : ℝ) * (360 / ((get_num_vias L).1 : ℝ)) < 360 := by
      have hklt : ((v / 2 : ℕ) : ℝ) < ((get_num_vias L).1 : ℝ) := by
        exact_mod_cast hk
      calc ((v / 2 : ℕ) : ℝ) * (360 / ((get_num_vias L).1 : ℝ))
          < ((get_num_vias L).1 : ℝ) * (360 / ((get_num_vias L).1 : ℝ)) := by
            exact mul_lt_mul_of_pos_right hklt (by positivity)
        _ = 360 := by field_simp
    rw [if_pos hpar]
    simp only [if_neg (by omega : ¬ v % 2 ≠ 0)]
    exact via_point_eq_pc hd0 hd1 hin
  · have hodd : v % 2 = 1 := by omega
    have hnz : (get_num_vias L).2 ≠ 0 := by omega
    have hk : v / 2 < (get_num_vias L).2 := by omega
    have hnr : (0 : ℝ) < ((get_num_vias L).2 : ℝ) := by
      exact_mod_cast Nat.pos_of_ne_zero hnz
    have hd0 : (0 : ℝ) ≤ ((v / 2 : ℕ) : ℝ) * (360 / ((get_num_vias L).2 : ℝ)) :=
      mul_nonneg (Nat.cast_nonneg _) (div_nonneg (by norm_num) hnr.le)
    have hd1 : ((v / 2 : ℕ) : ℝ) * (360 / ((get_num_vias L).2 : ℝ)) < 360 := by
      have hklt : ((v / 2 : ℕ) : ℝ) < ((get_num_vias L).2 : ℝ) := by
        exact_mod_cast hk
      calc ((v / 2 : ℕ) : ℝ) * (360 / ((get_num_vias L).2 : ℝ))
          < ((get_num_vias L).2 : ℝ) * (360 / ((get_num_vias L).2 : ℝ)) := by
            exact mul_lt_mul_of_pos_right hklt (by positivity)
        _ = 360 := by field_simp
    rw [if_neg hpar]
    simp only [if_pos (by omega : v % 2 ≠ 0), if_pos hnz]
    exact via_point_eq_pc hd0 hd1 hout

/-- Claim C2 counterexample: with layerCount 1 and valid dimensions the only
via of the planner sits at `(16, 0)`, while `get_point_on_circle` at the
claimed angle `0 * (360 / ringCount)` and ring radius 16 returns `(0, 16)`;
the two points differ, so the planner does not place vias at the point the
claim names. -/
theorem c2_counterexample :
    ((generate_vias (fun n => n) 0 40 1 1 1 1 1 1).1).map ViaEnt.pos = [⟨16, 0⟩]
    ∧ (get_via_radius 40 1 1 1 1).1 = 16
    ∧ get_point_on_circle (((0 / 2 : ℕ) : ℝ) * (360 / ((get_num_vias 1).1 : ℝ)))
        (get_via_radius 40 1 1 1 1).1 = ⟨0, 16⟩
    ∧ (⟨(16 : ℝ), 0⟩ : P2D) ≠ ⟨0, 16⟩ := by
  have hrad : (get_via_radius 40 1 1 1 1).1 = 16 := by
    norm_num [get_via_radius]
  have hrad0 : radians 0 = 0 := by rw [radians]; ring
  refine ⟨?_, hrad, ?_, ?_⟩
  · have hrange : List.range ((get_num_vias 1).1 + (get_num_vias 1).2) = [0] := by
      decide
    simp only [generate_vias, List.map_map, hrange, List.map_cons,
      List.map_nil, Function.comp_apply, hrad]
    norm_num [hrad0]
    rw [show (256 : ℝ) = 16 ^ 2 by norm_num]
    exact Real.sqrt_sq (by norm_num)
  · rw [show (((0 / 2 : ℕ) : ℝ) * (360 / ((get_num_vias 1).1 : ℝ))) = 0 by
      norm_num]
    rw [hrad]
    exact pc_0 16
  · intro h
    rw [P2D.mk.injEq] at h
    exact absurd h.1 (by norm_num)

/-- Claim C2 witness: the placement theorem applied to the third via of a
three-layer coil with concrete valid dimensions. -/
theorem c2_via_placement_witness :
    (((generate_vias (fun n => n) 0 40 1 1 1 1 1 3).1).map ViaEnt.pos).getD 2 ⟨0, 0⟩
      = get_point_on_circle
          (90 - ((2 / 2 : ℕ) : ℝ) * (360 / ((get_num_vias 3).1 : ℝ)))
          (get_via_radius 40 1 1 1 1).1 := by
  have h := c2_via_placement (fun n => n) 0 40 1 1 1 1 1 3 2 (by decide)
    (by norm_num [get_via_radius]) (by norm_num [get_via_radius])
  rw [h, if_pos (by decide)]

/-! ### Pad generator and planner tag lemmas -/

theorem generate_pads_pads_len (u : ℕ → ℕ) (c : ℕ) (lines : List LineEnt)
    (outer w vd : ℝ) (cw : Bool) (L : ℕ) (tn bn : String) :
    ((generate_pads u c lines outer w vd cw L tn bn).2.1).length
      = if 1 < L ∧ L % 2 = 0 then 2 else 1 := by
  by_cases h : 1 < L ∧ L % 2 = 0 <;> simp [generate_pads, h]

theorem generate_pads_lines_len (u : ℕ → ℕ) (c : ℕ) (lines : List LineEnt)
    (outer w vd : ℝ) (cw : Bool) (L : ℕ) (tn bn : String) :
    ((generate_pads u c lines outer w vd cw L tn bn).1).length
      = lines.length + (if 1 < L ∧ L % 2 = 0 then 4 else 2) := by
  by_cases h : 1 < L ∧ L % 2 = 0 <;> simp [generate_pads, h]

theorem generate_pads_pid2 (u : ℕ → ℕ) (c : ℕ) (lines : List LineEnt)
    (outer w vd : ℝ) (cw : Bool) (L : ℕ) (tn bn : String) :
    (∃ p ∈ (generate_pads u c lines outer w vd cw L tn bn).2.1, p.pid = 2)
      ↔ (1 < L ∧ L % 2 = 0) := by
  by_cases h : 1 < L ∧ L % 2 = 0 <;> simp [generate_pads, pad, h]

theorem generate_vias_proj (u : ℕ → ℕ) (L : ℕ) (cw : Bool) (T : ℕ)
    (w s vd dr D : ℝ) (nm : String) (ns : List String) :
    (generate u L cw T w s vd dr D nm ns).vias
      = (generate_vias u 0 D T w s vd dr L).1 := rfl

theorem generate_pads_proj (u : ℕ → ℕ) (L : ℕ) (cw : Bool) (T : ℕ)
    (w s vd dr D : ℝ) (nm : String) (ns : List String) :
    (generate u L cw T w s vd dr D nm ns).pads
      = (generate_pads u
          (generate_coil_spiral u cw L w s T D ns
            (generate_vias u 0 D T w s vd dr L).2.1
            (generate_vias u 0 D T w s vd dr L).2.2).2.2.2
          (generate_coil_spiral u cw L w s T D ns
            (generate_vias u 0 D T w s vd dr L).2.1
            (generate_vias u 0 D T w s vd dr L).2.2).2.1
          (generate_coil_spiral u cw L w s T D ns
            (generate_vias u 0 D T w s vd dr L).2.1
            (generate_vias u 0 D T w s vd dr L).2.2).2.2.1
          w vd cw L (ns.getD 0 ("")) (ns.getD (L - 1) (""))).2.1 := rfl

/-- Claim C6: for every layerCount with at least one layer, the via planner
emits pad number 2 on exactly one via, the last one, precisely when the layer
count is odd; with an even layer count no via is tagged. -/
theorem c6_pad2_tag (u : ℕ → ℕ) (c : ℕ) (D : ℝ) (T : ℕ) (w s vd dr : ℝ)
    (L : ℕ) (hL : 1 ≤ L) :
    (L % 2 = 1 →
      ((generate_vias u c D T w s vd dr L).1).map ViaEnt.padnum
        = List.replicate ((get_num_vias L).1 + (get_num_vias L).2 - 1) 0 ++ [2])
    ∧ (L % 2 = 0 →
      ((generate_vias u c D T w s vd dr L).1).map ViaEnt.padnum
        = List.replicate ((get_num_vias L).1 + (get_num_vias L).2) 0)
    ∧ (((generate_vias u c D T w s vd dr L).1).map ViaEnt.padnum).count 2
        = if L % 2 = 1 then 1 else 0 := by
  have hpos : 1 ≤ (get_num_vias L).1 + (get_num_vias L).2 := by
    have := get_num_vias_inside_pos L
    omega
  have hodd : L % 2 = 1 →
      ((generate_vias u c D T w s vd dr L).1).map ViaEnt.padnum
        = List.replicate ((get_num_vias L).1 + (get_num_vias L).2 - 1) 0
            ++ [2] := by
    intro h1
    rw [generate_vias_padnum_map]
    simp only [h1, true_and]
    exact range_map_last_tag _ hpos
  have heven : L % 2 = 0 →
      ((generate_vias u c D T w s vd dr L).1).map ViaEnt.padnum
        = List.replicate ((get_num_vias L).1 + (get_num_vias L).2) 0 := by
    intro h0
    rw [generate_vias_padnum_map]
    have : ∀ v, (if L % 2 = 1 ∧
        v = (get_num_vias L).1 + (get_num_vias L).2 - 1 then 2 else 0) = 0 := by
      intro v
      rw [if_neg]
      omega
    simp only [this]
    rw [List.map_const', List.length_range]
  refine ⟨hodd, heven, ?_⟩
  rcases Nat.mod_two_eq_zero_or_one L with h | h
  · rw [heven h, if_neg (by omega)]
    simp [List.count_replicate]
  · rw [hodd h, if_pos h]
    simp [List.count_append, List.count_replicate]

/-- Claim C6 witness: with three layers the planner emits three vias whose
tags are 0, 0, 2. -/
theorem c6_pad2_tag_witness :
    ((generate_vias (fun n => n) 0 40 1 1 1 1 1 3).1).map ViaEnt.padnum
      = [0, 0, 2] := by
  have h := (c6_pad2_tag (fun n => n) 0 40 1 1 1 1 1 3 (by norm_num)).1
    (by norm_num)
  rw [h]
  decide

/-- Claim C7: the generated coil has one pad when the layer count is odd or
one, two pads when it is even and greater than one, and the bottom pad with
its two connecting lines is emitted exactly in the latter case. -/
theorem c7_pad_count (u : ℕ → ℕ) (L : ℕ) (cw : Bool) (T : ℕ)
    (w s vd dr D : ℝ) (nm : String) (ns : List String) (hL : 1 ≤ L) :
    ((generate u L cw T w s vd dr D nm ns).pads.length
        = if L % 2 = 1 ∨ L = 1 then 1 else 2)
    ∧ (∀ c lines outer tn bn,
        ((generate_pads u c lines outer w vd cw L tn bn).1).length
          = lines.length + (if 1 < L ∧ L % 2 = 0 then 4 else 2))
    ∧ ((∃ p ∈ (generate u L cw T w s vd dr D nm ns).pads, p.pid = 2)
        ↔ (1 < L ∧ L % 2 = 0)) := by
  refine ⟨?_, fun c lines outer tn bn =>
    generate_pads_lines_len u c lines outer w vd cw L tn bn, ?_⟩
  · rw [generate_pads_proj, generate_pads_pads_len]
    by_cases h : 1 < L ∧ L % 2 = 0
    · rw [if_pos h, if_neg (by omega)]
    · rw [if_neg h, if_pos (by omega)]
  · rw [generate_pads_proj]
    exact generate_pads_pid2 u _ _ _ w vd cw L _ _

/-- Claim C7 witness: a two-layer coil has two pads, one of them pad 2, and
the pad generator appends four lines. -/
theorem c7_pad_count_witness :
    (generate (fun n => n) 2 true 1 1 1 1 1 40 ("coil") ["A", "B"]).pads.length
      = 2 := by
  have h := (c7_pad_count (fun n => n) 2 true 1 1 1 1 1 40 ("coil") ["A", "B"]
    (by norm_num)).1
  rw [h, if_neg (by norm_num)]

/-! ### Connector call bookkeeping -/

theorem connect_via_lines_len (u : ℕ → ℕ) (c : ℕ) (epr : ℝ) (ep : P2D)
    (inc : ℝ) (ln : String) (w : ℝ) (inside cw : Bool) (conn : Connector)
    (arcs : List ArcEnt) (lines : List LineEnt) :
    ((connect_via u c epr ep inc ln w inside cw conn arcs lines).2.1).length
      = lines.length + 1 := by
  rw [connect_via]
  simp [line]

theorem spiral_layer_lines_len (u : ℕ → ℕ) (cw : Bool) (L : ℕ) (w s : ℝ)
    (T : ℕ) (sr : ℝ) (ns : List String) (conns : List Connector)
    (layer : ℕ) (arcs : List ArcEnt) (lines : List LineEnt) (c : ℕ) :
    ((spiral_layer u cw L w s T sr ns conns layer arcs lines c).2.1).length
      = lines.length + (connectorCallIndices L layer).length := by
  rw [spiral_layer, connectorCallIndices]
  by_cases h1 : 0 < layer <;> by_cases h2 : layer < L - 1 ∨ L % 2 = 1 <;>
    simp [h1, h2, Nat.mod_two_ne_zero, connect_via_lines_len]

/-- Claim C10: every anchor index that the spiral generator passes to the
via-bridge connector is strictly below the via count of the planner; the
first guard contributes index layer-1 only for positive layers, the second
contributes index layer only below the last layer or for odd layer counts,
and each listed index corresponds to exactly one connector invocation (one
emitted closing line). -/
theorem c10_connector_indices (L : ℕ) (hL : 1 ≤ L) (layer : ℕ)
    (hlayer : layer < L) :
    (∀ i ∈ connectorCallIndices L layer,
        i < (get_num_vias L).1 + (get_num_vias L).2)
    ∧ (∀ (u : ℕ → ℕ) (cw : Bool) (w s sr : ℝ) (T : ℕ) (ns : List String)
        (conns : List Connector) (arcs : List ArcEnt) (lines : List LineEnt)
        (c : ℕ),
        ((spiral_layer u cw L w s T sr ns conns layer arcs lines c).2.1).length
          = lines.length + (connectorCallIndices L layer).length) := by
  constructor
  · intro i hi
    have e1 : (get_num_vias L).1 = (L - (1 - L % 2)) / 2 + 1 := rfl
    have e2 : (get_num_vias L).2 = (L - (1 - L % 2)) / 2 + 1 - 1 := rfl
    rw [connectorCallIndices] at hi
    by_cases h1 : 0 < layer <;> by_cases h2 : layer < L - 1 ∨ L % 2 ≠ 0 <;>
      simp only [h1, h2, if_pos, if_neg, if_true, if_false,
        List.mem_append, List.mem_singleton, List.not_mem_nil, or_false,
        false_or, reduceIte] at hi <;> omega
  · intro u cw w s sr T ns conns arcs lines c
    exact spiral_layer_lines_len u cw L w s T sr ns conns layer arcs lines c

/-- Claim C10 witness: the bound theorem applied to the second layer of a
two-layer coil, whose single anchor index 0 is below the via count. -/
theorem c10_connector_indices_witness :
    (0 : ℕ) < (get_num_vias 2).1 + (get_num_vias 2).2 :=
  (c10_connector_indices 2 (by norm_num) 1 (by norm_num)).1 0 (by decide)

/-- Claim C1 counterexample: for layerCount 2 the planner returns
insideCount 1 and outsideCount 0 - not 2 and 1 - and the generated output of
Scenario B therefore contains one via, not three. -/
theorem c1_counterexample :
    ¬ (get_num_vias 2 = (2, 1)
       ∧ (generate (fun n => n) 2 true 4 (127/1000) (127/1000) (6/10) (3/10)
            12 ("L1") ["F.Cu", "B.Cu"]).vias.length = 3) := by
  intro h
  have heq : get_num_vias 2 = (1, 0) := by decide
  rw [heq] at h
  exact absurd h.1 (by decide)

/-- Claim C1 (amended): a generate call with layerCount 2 and valid remaining
parameters has insideCount 1 and outsideCount 0, so the output contains one
via and two pads, and the via-bridge connector is invoked for at least one
via on each of the two layers. -/
theorem c1_scenario_b (u : ℕ → ℕ) (cw : Bool) (T : ℕ) (w s vd dr D : ℝ)
    (nm : String) (ns : List String) (hw : 0 < w) (hs : 0 < s) (hvd : 0 < vd)
    (hdr : 0 < dr) (hD : 0 < D) (hT : 1 ≤ T) (hns : 2 ≤ ns.length) :
    get_num_vias 2 = (1, 0)
    ∧ (generate u 2 cw T w s vd dr D nm ns).vias.length = 1
    ∧ (generate u 2 cw T w s vd dr D nm ns).pads.length = 2
    ∧ (∀ layer < 2, connectorCallIndices 2 layer ≠ []) := by
  refine ⟨by decide, ?_, ?_, by decide⟩
  · rw [generate_vias_proj, generate_vias_len]
    decide
  · rw [generate_pads_proj, generate_pads_pads_len, if_pos (by norm_num)]

/-- Claim C1 witness: the amended scenario applied at the concrete Scenario B
parameter set. -/
theorem c1_scenario_b_witness :
    (generate (fun n => n) 2 true 4 (127/1000) (127/1000) (6/10) (3/10) 12
      ("L1") ["F.Cu", "B.Cu"]).vias.length = 1 :=
  (c1_scenario_b (fun n => n) true 4 (127/1000) (127/1000) (6/10) (3/10) 12
    ("L1") ["F.Cu", "B.Cu"] (by norm_num) (by norm_num) (by norm_num)
    (by norm_num) (by norm_num) (by norm_num) (by simp)).2.1

/-! ### Angle difference lemmas -/

theorem angleOf_bounds (p : P2D) :
    -180 < get_angle_degree_of_point p ∧ get_angle_degree_of_point p ≤ 180 := by
  have hpi := Real.pi_pos
  rw [get_angle_degree_of_point, atan2]
  have h1 := Complex.neg_pi_lt_arg ⟨p.y, p.x⟩
  have h2 := Complex.arg_le_pi ⟨p.y, p.x⟩
  constructor
  · rw [lt_div_iff hpi]
    nlinarith
  · rw [div_le_iff hpi]
    nlinarith

theorem ifsum (r1 : ℝ) (h0 : 0 ≤ r1) (h1 : r1 < 360) :
    (if r1 = 360 then (0:ℝ) else r1)
      + (if 360 - r1 = 360 then (0:ℝ) else 360 - r1) = 0
    ∨ (if r1 = 360 then (0:ℝ) else r1)
      + (if 360 - r1 = 360 then (0:ℝ) else 360 - r1) = 360 := by
  rw [if_neg (by linarith : ¬ r1 = 360)]
  by_cases hz : r1 = 0
  · left
    rw [if_pos (by rw [hz]; norm_num), hz]
    norm_num
  · right
    rw [if_neg (fun hc => hz (by linarith))]
    ring

theorem gadb_sum (a b : P2D) :
    get_angle_degree_between a b true + get_angle_degree_between a b false = 0
    ∨ get_angle_degree_between a b true
        + get_angle_degree_between a b false = 360 := by
  obtain ⟨ha1, ha2⟩ := angleOf_bounds a
  obtain ⟨hb1, hb2⟩ := angleOf_bounds b
  unfold get_angle_degree_between
  simp only [Bool.not_true, Bool.not_false]
  rw [if_neg (show ¬ (false = true) by simp)]
  split_ifs <;> first
    | (left; linarith)
    | (right; linarith)

/-- Claim C8: for points with a well-defined angle and distinct from each
other, the clockwise and counter-clockwise angle differences returned by
get_angle_degree_between are complementary modulo 360. -/
theorem c8_angle_complement (a b : P2D) (hab : a ≠ b)
    (ha : ¬ (a.x = 0 ∧ a.y = 0)) (hb : ¬ (b.x = 0 ∧ b.y = 0)) :
    ∃ k : ℤ, get_angle_degree_between a b true
        + get_angle_degree_between a b false = 360 * k := by
  rcases gadb_sum a b with h | h
  · exact ⟨0, by rw [h]; norm_num⟩
  · exact ⟨1, by rw [h]; norm_num⟩

/-- Claim C8 witness: the complement theorem applied at the distinct
non-origin points (1, 0) and (0, 1). -/
theorem c8_angle_complement_witness :
    ∃ k : ℤ, get_angle_degree_between ⟨1, 0⟩ ⟨0, 1⟩ true
        + get_angle_degree_between ⟨1, 0⟩ ⟨0, 1⟩ false = 360 * k := by
  apply c8_angle_complement
  · intro h
    rw [P2D.mk.injEq] at h
    exact absurd h.1 one_ne_zero
  · intro h
    exact absurd h.1 one_ne_zero
  · intro h
    exact absurd h.2 one_ne_zero

/-- Claim C9: projecting a point that already lies on the circle of radius
r back onto radius r with get_point_radius_reduced is the identity, for every
angle and every positive radius. -/
theorem c9_project_idempotent (θ r : ℝ) (hr : 0 < r) :
    get_point_radius_reduced (get_point_on_circle θ r) r
      = get_point_on_circle θ r :=
  reduce_pc θ r hr

/-- Claim C9 witness: the idempotence theorem applied at angle 0 and
radius 1. -/
theorem c9_project_idempotent_witness :
    get_point_radius_reduced (get_point_on_circle 0 1) 1
      = get_point_on_circle 0 1 :=
  c9_project_idempotent 0 1 (by norm_num)

/-! ### Determinism up to the identifier stream -/

theorem generate_vias_uuid_map (u : ℕ → ℕ) (c : ℕ) (D : ℝ) (T : ℕ)
    (w s vd dr : ℝ) (L : ℕ) :
    ((generate_vias u c D T w s vd dr L).1).map ViaEnt.uuid
      = (List.range ((get_num_vias L).1 + (get_num_vias L).2)).map
          (fun v => u (c + v)) := by
  simp only [generate_vias, List.map_map]
  rfl

/-- Claim C4 counterexample: two runs of generate with identical argument
values but different identifier draws from the external uuid source produce
different outputs, so the output is not a function of the arguments alone. -/
theorem c4_counterexample :
    generate (fun n => n) 1 true 1 1 1 1 1 40 ("c") ["A"]
      ≠ generate (fun n => n + 1) 1 true 1 1 1 1 1 40 ("c") ["A"] := by
  intro h
  have h2 := congrArg (fun o => o.vias.map ViaEnt.uuid) h
  dsimp only at h2
  rw [generate_vias_proj, generate_vias_proj, generate_vias_uuid_map,
    generate_vias_uuid_map] at h2
  have hcnt : (get_num_vias 1).1 + (get_num_vias 1).2 = 1 := by decide
  rw [hcnt] at h2
  simp [List.range_succ] at h2

theorem loop_map_erase (u₁ u₂ : ℕ → ℕ) (c : ℕ) (r inc w : ℝ) (nm : String)
    (m : ℤ) :
    ((loop u₁ c r inc w nm m).1).map eraseArcUuid
      = ((loop u₂ c r inc w nm m).1).map eraseArcUuid := by
  simp [loop, arc, eraseArcUuid]

theorem loop_counter (u : ℕ → ℕ) (c : ℕ) (r inc w : ℝ) (nm : String) (m : ℤ) :
    (loop u c r inc w nm m).2 = c + 2 := rfl

theorem turns_fold_erase (u₁ u₂ : ℕ → ℕ) (inc w : ℝ) (nm : String) (m : ℤ)
    (l : List ℕ) :
    ∀ (arcs₁ arcs₂ : List ArcEnt) (r : ℝ) (c : ℕ),
      arcs₁.map eraseArcUuid = arcs₂.map eraseArcUuid →
      ((l.foldl (fun (st : List ArcEnt × ℝ × ℕ) _ =>
          (st.1 ++ (loop u₁ st.2.2 st.2.1 inc w nm m).1, st.2.1 + inc,
            (loop u₁ st.2.2 st.2.1 inc w nm m).2)) (arcs₁, r, c)).1).map
            eraseArcUuid
        = ((l.foldl (fun (st : List ArcEnt × ℝ × ℕ) _ =>
          (st.1 ++ (loop u₂ st.2.2 st.2.1 inc w nm m).1, st.2.1 + inc,
            (loop u₂ st.2.2 st.2.1 inc w nm m).2)) (arcs₂, r, c)).1).map
            eraseArcUuid
      ∧ (l.foldl (fun (st : List ArcEnt × ℝ × ℕ) _ =>
          (st.1 ++ (loop u₁ st.2.2 st.2.1 inc w nm m).1, st.2.1 + inc,
            (loop u₁ st.2.2 st.2.1 inc w nm m).2)) (arcs₁, r, c)).2
        = (l.foldl (fun (st : List ArcEnt × ℝ × ℕ) _ =>
          (st.1 ++ (loop u₂ st.2.2 st.2.1 inc w nm m).1, st.2.1 + inc,
            (loop u₂ st.2.2 st.2.1 inc w nm m).2)) (arcs₂, r, c)).2 := by
  induction l with
  | nil =>
    intro arcs₁ arcs₂ r c ha
    exact ⟨ha, rfl⟩
  | cons hd tl ih =>
    intro arcs₁ arcs₂ r c ha
    rw [List.foldl_cons, List.foldl_cons]
    rw [loop_counter, loop_counter]
    apply ih
    rw [List.map_append, List.map_append, ha, loop_map_erase u₁ u₂]

theorem connect_via_erase (u₁ u₂ : ℕ → ℕ) (c : ℕ) (epr : ℝ) (ep : P2D)
    (inc : ℝ) (ln : String) (w : ℝ) (inside cw : Bool) (conn : Connector)
    (arcs₁ arcs₂ : List ArcEnt) (lines₁ lines₂ : List LineEnt)
    (ha : arcs₁.map eraseArcUuid = arcs₂.map eraseArcUuid)
    (hl : lines₁.map eraseLineUuid = lines₂.map eraseLineUuid) :
    ((connect_via u₁ c epr ep inc ln w inside cw conn arcs₁ lines₁).1).map
        eraseArcUuid
      = ((connect_via u₂ c epr ep inc ln w inside cw conn arcs₂ lines₂).1).map
        eraseArcUuid
    ∧ ((connect_via u₁ c epr ep inc ln w inside cw conn arcs₁ lines₁).2.1).map
        eraseLineUuid
      = ((connect_via u₂ c epr ep inc ln w inside cw conn arcs₂ lines₂).2.1).map
        eraseLineUuid
    ∧ (connect_via u₁ c epr ep inc ln w inside cw conn arcs₁ lines₁).2.2
      = (connect_via u₂ c epr ep inc ln w inside cw conn arcs₂ lines₂).2.2 := by
  simp only [connect_via]
  split_ifs <;>
    simp [arc, line, eraseArcUuid, eraseLineUuid, ha, hl]

theorem spiral_layer_erase (u₁ u₂ : ℕ → ℕ) (cw : Bool) (L : ℕ) (w s : ℝ)
    (T : ℕ) (sr : ℝ) (ns : List String) (conns : List Connector) (layer : ℕ)
    (a₁ a₂ : List ArcEnt) (l₁ l₂ : List LineEnt) (c : ℕ)
    (ha : a₁.map eraseArcUuid = a₂.map eraseArcUuid)
    (hl : l₁.map eraseLineUuid = l₂.map eraseLineUuid) :
    ((spiral_layer u₁ cw L w s T sr ns conns layer a₁ l₁ c).1).map eraseArcUuid
      = ((spiral_layer u₂ cw L w s T sr ns conns layer a₂ l₂ c).1).map
          eraseArcUuid
    ∧ ((spiral_layer u₁ cw L w s T sr ns conns layer a₁ l₁ c).2.1).map
          eraseLineUuid
      = ((spiral_layer u₂ cw L w s T sr ns conns layer a₂ l₂ c).2.1).map
          eraseLineUuid
    ∧ (spiral_layer u₁ cw L w s T sr ns conns layer a₁ l₁ c).2.2.1
      = (spiral_layer u₂ cw L w s T sr ns conns layer a₂ l₂ c).2.2.1
    ∧ (spiral_layer u₁ cw L w s T sr ns conns layer a₁ l₁ c).2.2.2
      = (spiral_layer u₂ cw L w s T sr ns conns layer a₂ l₂ c).2.2.2 := by
  simp only [spiral_layer]
  obtain ⟨hf, hf2⟩ := turns_fold_erase u₁ u₂ (w + s) w (ns.getD layer (""))
    ((if cw then 1 else -1) * (if layer % 2 ≠ 0 then -1 else 1))
    (List.range T) a₁ a₂ sr c ha
  generalize hst1 : (List.range T).foldl
      (fun (st : List ArcEnt × ℝ × ℕ) _ =>
        (st.1 ++ (loop u₁ st.2.2 st.2.1 (w + s) w (ns.getD layer (""))
            ((if cw then 1 else -1) * (if layer % 2 ≠ 0 then -1 else 1))).1,
          st.2.1 + (w + s),
          (loop u₁ st.2.2 st.2.1 (w + s) w (ns.getD layer (""))
            ((if cw then 1 else -1) * (if layer % 2 ≠ 0 then -1 else 1))).2))
      (a₁, sr, c) = st₁ at hf hf2 ⊢
  generalize hst2 : (List.range T).foldl
      (fun (st : List ArcEnt × ℝ × ℕ) _ =>
        (st.1 ++ (loop u₂ st.2.2 st.2.1 (w + s) w (ns.getD layer (""))
            ((if cw then 1 else -1) * (if layer % 2 ≠ 0 then -1 else 1))).1,
          st.2.1 + (w + s),
          (loop u₂ st.2.2 st.2.1 (w + s) w (ns.getD layer (""))
            ((if cw then 1 else -1) * (if layer % 2 ≠ 0 then -1 else 1))).2))
      (a₂, sr, c) = st₂ at hf hf2 ⊢
  obtain ⟨A₁, r₁, c₁⟩ := st₁
  obtain ⟨A₂, r₂, c₂⟩ := st₂
  dsimp only at hf hf2 ⊢
  rw [Prod.mk.injEq] at hf2
  obtain ⟨hr, hc⟩ := hf2
  subst hr hc
  set FVI : Bool := if layer % 2 = 0 then false else true with hFVI
  set SVI : Bool := if layer % 2 = 0 then true else false with hSVI
  set CC : Bool :=
    if cw = true ∧ layer % 2 = 0 ∨ ¬cw = true ∧ layer % 2 = 1 then true
    else false with hCC
  set E1 : P2D × ℝ :=
    if FVI = true then ((⟨sr, 0⟩ : P2D), sr) else ((⟨r₁, 0⟩ : P2D), r₁)
    with hE1
  set E2 : P2D × ℝ :=
    if SVI = true then ((⟨sr, 0⟩ : P2D), sr) else ((⟨r₁, 0⟩ : P2D), r₁)
    with hE2
  by_cases g1 : 0 < layer <;> by_cases g2 : layer < L - 1 ∨ L % 2 ≠ 0 <;>
    simp only [g1, g2, if_true, if_false]
  · obtain ⟨e1, e2, e3⟩ := connect_via_erase u₁ u₂ c₁ E1.2 E1.1 (w + s)
      (ns.getD layer ("")) w FVI CC (conns.getD (layer - 1) ⟨0, 0, 0⟩)
      A₁ A₂ l₁ l₂ hf hl
    rw [← e3]
    obtain ⟨f1, f2, f3⟩ := connect_via_erase u₁ u₂
      (connect_via u₁ c₁ E1.2 E1.1 (w + s) (ns.getD layer ("")) w FVI CC
        (conns.getD (layer - 1) ⟨0, 0, 0⟩) A₁ l₁).2.2
      E2.2 E2.1 (w + s) (ns.getD layer ("")) w SVI CC
      (conns.getD layer ⟨0, 0, 0⟩)
      (connect_via u₁ c₁ E1.2 E1.1 (w + s) (ns.getD layer ("")) w FVI CC
        (conns.getD (layer - 1) ⟨0, 0, 0⟩) A₁ l₁).1
      (connect_via u₂ c₁ E1.2 E1.1 (w + s) (ns.getD layer ("")) w FVI CC
        (conns.getD (layer - 1) ⟨0, 0, 0⟩) A₂ l₂).1
      (connect_via u₁ c₁ E1.2 E1.1 (w + s) (ns.getD layer ("")) w FVI CC
        (conns.getD (layer - 1) ⟨0, 0, 0⟩) A₁ l₁).2.1
      (connect_via u₂ c₁ E1.2 E1.1 (w + s) (ns.getD layer ("")) w FVI CC
        (conns.getD (layer - 1) ⟨0, 0, 0⟩) A₂ l₂).2.1
      e1 e2
    exact ⟨f1, f2, trivial, f3⟩
  · obtain ⟨e1, e2, e3⟩ := connect_via_erase u₁ u₂ c₁ E1.2 E1.1 (w + s)
      (ns.getD layer ("")) w FVI CC (conns.getD (layer - 1) ⟨0, 0, 0⟩)
      A₁ A₂ l₁ l₂ hf hl
    exact ⟨e1, e2, trivial, e3⟩
  · obtain ⟨e1, e2, e3⟩ := connect_via_erase u₁ u₂ c₁ E2.2 E2.1 (w + s)
      (ns.getD layer ("")) w SVI CC (conns.getD layer ⟨0, 0, 0⟩)
      A₁ A₂ l₁ l₂ hf hl
    exact ⟨e1, e2, trivial, e3⟩
  · exact ⟨hf, hl, trivial, trivial⟩

theorem spiral_fold_erase (u₁ u₂ : ℕ → ℕ) (cw : Bool) (L : ℕ) (w s : ℝ)
    (T : ℕ) (sr : ℝ) (ns : List String) (conns : List Connector)
    (l : List ℕ) :
    ∀ (st₁ st₂ : List ArcEnt × List LineEnt × ℝ × ℕ),
      st₁.1.map eraseArcUuid = st₂.1.map eraseArcUuid →
      st₁.2.1.map eraseLineUuid = st₂.2.1.map eraseLineUuid →
      st₁.2.2.1 = st₂.2.2.1 → st₁.2.2.2 = st₂.2.2.2 →
      (((l.foldl (fun st layer => spiral_layer u₁ cw L w s T sr ns conns layer
          st.1 st.2.1 st.2.2.2) st₁).1).map eraseArcUuid
        = ((l.foldl (fun st layer => spiral_layer u₂ cw L w s T sr ns conns
            layer st.1 st.2.1 st.2.2.2) st₂).1).map eraseArcUuid)
      ∧ (((l.foldl (fun st layer => spiral_layer u₁ cw L w s T sr ns conns
            layer st.1 st.2.1 st.2.2.2) st₁).2.1).map eraseLineUuid
        = ((l.foldl (fun st layer => spiral_layer u₂ cw L w s T sr ns conns
            layer st.1 st.2.1 st.2.2.2) st₂).2.1).map eraseLineUuid)
      ∧ ((l.foldl (fun st layer => spiral_layer u₁ cw L w s T sr ns conns
            layer st.1 st.2.1 st.2.2.2) st₁).2.2.1
        = (l.foldl (fun st layer => spiral_layer u₂ cw L w s T sr ns conns
            layer st.1 st.2.1 st.2.2.2) st₂).2.2.1)
      ∧ ((l.foldl (fun st layer => spiral_layer u₁ cw L w s T sr ns conns
            layer st.1 st.2.1 st.2.2.2) st₁).2.2.2
        = (l.foldl (fun st layer => spiral_layer u₂ cw L w s T sr ns conns
            layer st.1 st.2.1 st.2.2.2) st₂).2.2.2) := by
  induction l with
  | nil =>
    intro st₁ st₂ h1 h2 h3 h4
    exact ⟨h1, h2, h3, h4⟩
  | cons hd tl ih =>
    intro st₁ st₂ h1 h2 h3 h4
    rw [List.foldl_cons, List.foldl_cons]
    have key := spiral_layer_erase u₁ u₂ cw L w s T sr ns conns hd
      st₁.1 st₂.1 st₁.2.1 st₂.2.1 st₁.2.2.2 h1 h2
    apply ih
    · rw [← h4]
      exact key.1
    · rw [← h4]
      exact key.2.1
    · rw [← h4]
      exact key.2.2.1
    · rw [← h4]
      exact key.2.2.2

theorem generate_coil_spiral_erase (u₁ u₂ : ℕ → ℕ) (cw : Bool) (L : ℕ)
    (w s : ℝ) (T : ℕ) (D : ℝ) (ns : List String) (conns : List Connector)
    (c : ℕ) :
    ((generate_coil_spiral u₁ cw L w s T D ns conns c).1).map eraseArcUuid
      = ((generate_coil_spiral u₂ cw L w s T D ns conns c).1).map eraseArcUuid
    ∧ ((generate_coil_spiral u₁ cw L w s T D ns conns c).2.1).map eraseLineUuid
      = ((generate_coil_spiral u₂ cw L w s T D ns conns c).2.1).map
          eraseLineUuid
    ∧ (generate_coil_spiral u₁ cw L w s T D ns conns c).2.2.1
      = (generate_coil_spiral u₂ cw L w s T D ns conns c).2.2.1
    ∧ (generate_coil_spiral u₁ cw L w s T D ns conns c).2.2.2
      = (generate_coil_spiral u₂ cw L w s T D ns conns c).2.2.2 := by
  simp only [generate_coil_spiral]
  exact spiral_fold_erase u₁ u₂ cw L w s T _ ns conns (List.range L)
    _ _ rfl rfl rfl rfl

theorem generate_vias_erase (u₁ u₂ : ℕ → ℕ) (c : ℕ) (D : ℝ) (T : ℕ)
    (w s vd dr : ℝ) (L : ℕ) :
    ((generate_vias u₁ c D T w s vd dr L).1).map eraseViaUuid
      = ((generate_vias u₂ c D T w s vd dr L).1).map eraseViaUuid
    ∧ (generate_vias u₁ c D T w s vd dr L).2.1
      = (generate_vias u₂ c D T w s vd dr L).2.1
    ∧ (generate_vias u₁ c D T w s vd dr L).2.2
      = (generate_vias u₂ c D T w s vd dr L).2.2 := by
  refine ⟨?_, rfl, rfl⟩
  simp only [generate_vias, List.map_map]
  rfl

theorem generate_pads_erase (u₁ u₂ : ℕ → ℕ) (c : ℕ)
    (l₁ l₂ : List LineEnt) (outer w vd : ℝ) (cw : Bool) (L : ℕ)
    (tn bn : String) (hl : l₁.map eraseLineUuid = l₂.map eraseLineUuid) :
    ((generate_pads u₁ c l₁ outer w vd cw L tn bn).1).map eraseLineUuid
      = ((generate_pads u₂ c l₂ outer w vd cw L tn bn).1).map eraseLineUuid
    ∧ ((generate_pads u₁ c l₁ outer w vd cw L tn bn).2.1).map erasePadUuid
      = ((generate_pads u₂ c l₂ outer w vd cw L tn bn).2.1).map erasePadUuid
    ∧ (generate_pads u₁ c l₁ outer w vd cw L tn bn).2.2
      = (generate_pads u₂ c l₂ outer w vd cw L tn bn).2.2 := by
  simp only [generate_pads]
  split_ifs <;> simp [line, pad, eraseLineUuid, erasePadUuid, hl]

/-- Claim C4 (amended): generate is deterministic as a function of its
argument values and the identifier sequence of the external uuid source:
with identifiers erased, two runs with identical argument values produce
identical output whatever identifiers the source returns (the geometric
output is a function of the arguments alone). -/
theorem c4_generate_deterministic_mod_uuids (u₁ u₂ : ℕ → ℕ) (L : ℕ)
    (cw : Bool) (T : ℕ) (w s vd dr D : ℝ) (nm : String) (ns : List String) :
    eraseUuids (generate u₁ L cw T w s vd dr D nm ns)
      = eraseUuids (generate u₂ L cw T w s vd dr D nm ns) := by
  obtain ⟨hv, hcn, hcc⟩ := generate_vias_erase u₁ u₂ 0 D T w s vd dr L
  obtain ⟨ha, hli, hr, hc⟩ := generate_coil_spiral_erase u₁ u₂ cw L w s T D ns
    (generate_vias u₁ 0 D T w s vd dr L).2.1
    (generate_vias u₁ 0 D T w s vd dr L).2.2
  simp only [generate, eraseUuids]
  rw [← hcn, ← hcc, CoilOutput.mk.injEq]
  refine ⟨rfl, ?_, ha, hv, ?_, rfl, rfl, rfl⟩
  · rw [← hr, ← hc]
    exact (generate_pads_erase u₁ u₂ _ _ _ _ w vd cw L _ _ hli).1
  · rw [← hr, ← hc]
    exact (generate_pads_erase u₁ u₂ _ _ _ _ w vd cw L _ _ hli).2.1

/-! ### The half-circle step of the via-bridge connector -/

theorem gadb_self (p : P2D) (cwb : Bool) :
    get_angle_degree_between p p cwb = 0 := by
  unfold get_angle_degree_between
  cases cwb <;> simp

theorem gadb_pos_neg_x {a b : ℝ} (ha : 0 < a) (hb : 0 < b) :
    get_angle_degree_between ⟨a, 0⟩ ⟨-b, 0⟩ true = 180 := by
  unfold get_angle_degree_between
  rw [angleOf_pos_x ha, angleOf_neg_x hb]
  norm_num

/-- The behaviour of connect_via when bridging is required and the directional
angle to the projected anchor is at least 180 degrees: one half-circle arc
from the endpoint to the reprojected negated endpoint, an optional partial
arc, and the closing line from the updated current point. -/
theorem connect_via_half_spec (u : ℕ → ℕ) (c : ℕ) (epr : ℝ) (ep : P2D)
    (inc : ℝ) (ln : String) (w : ℝ) (inside cw : Bool) (conn : Connector)
    (arcs : List ArcEnt) (lines : List LineEnt)
    (hdist : get_point_distance ep ⟨conn.x, conn.y⟩ ≥ 3 * inc)
    (hangle : get_angle_degree_between ep
        (get_point_radius_reduced ⟨conn.x, conn.y⟩
          (if inside then epr - inc else epr + inc)) (inside == cw) ≥ 180) :
    connect_via u c epr ep inc ln w inside cw conn arcs lines
      = (let target := if inside then epr - inc else epr + inc
         let R := if inside then target else target - inc
         let centerR := if inside then target + 0.5 * inc else target - inc
         let opp := get_point_radius_reduced ⟨-ep.x, -ep.y⟩ R
         let center : P2D :=
           if inside != cw then ⟨0, -centerR⟩ else ⟨0, centerR⟩
         let nearest := get_point_radius_reduced ⟨conn.x, conn.y⟩ target
         let rem := get_angle_degree_between opp nearest (inside == cw)
         (arcs ++ ((⟨ep, center, opp, w, ln, !(cw == inside), u c⟩ : ArcEnt) ::
             (if rem ≥ 3 * inc then
               [(⟨opp, get_circle_section_centerpoint opp nearest
                   ((target - R) / 2 + R), nearest, w, ln, !(inside == cw),
                 u (c + 1)⟩ : ArcEnt)]
              else [])),
          lines ++ [(⟨(if rem ≥ 3 * inc then nearest else opp),
            ⟨conn.x, conn.y⟩, w, ln,
            u (if rem ≥ 3 * inc then c + 2 else c + 1)⟩ : LineEnt)],
          if rem ≥ 3 * inc then c + 3 else c + 2)) := by
  simp only [connect_via, arc, line]
  rw [if_pos hdist, if_pos hangle]
  split_ifs <;> simp [List.append_assoc]

/-- Claim C3 counterexample: in a connect_via call with the inside flag set
where the half-circle branch fires, the emitted half arc ends at the negated
endpoint reprojected to targetRadius itself (here 9/5), not to targetRadius
plus half the increment (19/10) as the claim reads. -/
theorem c3_counterexample :
    ((connect_via (fun n => n) 0 2 ⟨2, 0⟩ (1/5) ("F") 1 true true ⟨-3, 0, 0⟩
        [] []).1).map ArcEnt.stop = [⟨-(9/5), 0⟩]
    ∧ get_point_radius_reduced ⟨-2, 0⟩ ((2 - 1/5) + 0.5 * (1/5))
        = ⟨-(19/10), 0⟩
    ∧ (⟨-(9/5), 0⟩ : P2D) ≠ ⟨-(19/10), 0⟩ := by
  have hp3 : (⟨(-3 : ℝ), 0⟩ : P2D) = get_point_on_circle (-90) 3 := by
    rw [pc_neg90]
  have hp2 : (⟨-(2 : ℝ), -(0 : ℝ)⟩ : P2D) = get_point_on_circle (-90) 2 := by
    rw [pc_neg90]
    norm_num
  have hdist : get_point_distance ⟨2, 0⟩ ⟨(-3 : ℝ), 0⟩ ≥ 3 * (1/5) := by
    rw [get_point_distance]
    rw [show ((2 : ℝ) - -3) ^ 2 + ((0 : ℝ) - 0) ^ 2 = 5 ^ 2 by norm_num]
    rw [Real.sqrt_sq (by norm_num)]
    norm_num
  have hnear : get_point_radius_reduced ⟨(-3 : ℝ), 0⟩
      (if true then (2 : ℝ) - 1/5 else 2 + 1/5) = ⟨-(2 - 1/5 : ℝ), 0⟩ := by
    rw [if_pos rfl, hp3, reduce_pc (-90) (2 - 1/5) (by norm_num), pc_neg90]
  have hangle : get_angle_degree_between ⟨2, 0⟩
      (get_point_radius_reduced ⟨(-3 : ℝ), 0⟩
        (if true then (2 : ℝ) - 1/5 else 2 + 1/5)) (true == true) ≥ 180 := by
    rw [hnear]
    rw [show ((true == true) : Bool) = true from rfl]
    rw [gadb_pos_neg_x (by norm_num : (0:ℝ) < 2) (by norm_num : (0:ℝ) < 2 - 1/5)]
  have hmain := connect_via_half_spec (fun n => n) 0 2 ⟨2, 0⟩ (1/5) ("F") 1
    true true ⟨-3, 0, 0⟩ [] [] hdist hangle
  refine ⟨?_, ?_, ?_⟩
  · rw [hmain]
    dsimp only
    simp only [eq_self_iff_true, if_true]
    have hopp : get_point_radius_reduced ⟨-(2 : ℝ), -(0 : ℝ)⟩
        ((2 : ℝ) - 1/5) = ⟨-(2 - 1/5 : ℝ), 0⟩ := by
      rw [hp2, reduce_pc (-90) (2 - 1/5) (by norm_num), pc_neg90]
    have hnear2 : get_point_radius_reduced ⟨(-3 : ℝ), 0⟩ ((2 : ℝ) - 1/5)
        = ⟨-(2 - 1/5 : ℝ), 0⟩ := by
      rw [hp3, reduce_pc (-90) (2 - 1/5) (by norm_num), pc_neg90]
    rw [hopp, hnear2, gadb_self]
    rw [if_neg (by norm_num : ¬ ((0 : ℝ) ≥ 3 * (1/5)))]
    simp only [List.nil_append, List.map_cons, List.map_nil]
    rw [show (2 : ℝ) - 1/5 = 9/5 by norm_num]
  · rw [show (⟨(-2 : ℝ), 0⟩ : P2D) = get_point_on_circle (-90) 2 by
      rw [pc_neg90]]
    rw [reduce_pc (-90) ((2 - 1/5) + 0.5 * (1/5)) (by norm_num), pc_neg90]
    rw [show ((2 : ℝ) - 1/5) + 0.5 * (1/5) = 19/10 by norm_num]
  · intro h
    rw [P2D.mk.injEq] at h
    have := h.1
    norm_num at this

/-- Claim C3 (amended): whenever bridging is required and the directional
angle to the projected anchor is at least 180 degrees, connect_via emits a
half-circle arc from the endpoint to its diametrically opposite point, the
negated endpoint reprojected to targetRadius when inside and to
targetRadius - increment when outside; the arc midpoint sits perpendicular to
the starting radius at targetRadius + 0.5 * increment when inside
(targetRadius - increment when outside), with its sign flipped when
inside differs from windClockwise, and the rest of the bridge continues from
this opposite point and radius. -/
theorem c3_half_circle_step (u : ℕ → ℕ) (c : ℕ) (epr : ℝ) (ep : P2D)
    (inc : ℝ) (ln : String) (w : ℝ) (inside cw : Bool) (conn : Connector)
    (arcs : List ArcEnt) (lines : List LineEnt)
    (hdist : get_point_distance ep ⟨conn.x, conn.y⟩ ≥ 3 * inc)
    (hangle : get_angle_degree_between ep
        (get_point_radius_reduced ⟨conn.x, conn.y⟩
          (if inside then epr - inc else epr + inc)) (inside == cw) ≥ 180) :
    connect_via u c epr ep inc ln w inside cw conn arcs lines
      = (let target := if inside then epr - inc else epr + inc
         let R := if inside then target else target - inc
         let centerR := if inside then target + 0.5 * inc else target - inc
         let opp := get_point_radius_reduced ⟨-ep.x, -ep.y⟩ R
         let center : P2D :=
           if inside != cw then ⟨0, -centerR⟩ else ⟨0, centerR⟩
         let nearest := get_point_radius_reduced ⟨conn.x, conn.y⟩ target
         let rem := get_angle_degree_between opp nearest (inside == cw)
         (arcs ++ ((⟨ep, center, opp, w, ln, !(cw == inside), u c⟩ : ArcEnt) ::
             (if rem ≥ 3 * inc then
               [(⟨opp, get_circle_section_centerpoint opp nearest
                   ((target - R) / 2 + R), nearest, w, ln, !(inside == cw),
                 u (c + 1)⟩ : ArcEnt)]
              else [])),
          lines ++ [(⟨(if rem ≥ 3 * inc then nearest else opp),
            ⟨conn.x, conn.y⟩, w, ln,
            u (if rem ≥ 3 * inc then c + 2 else c + 1)⟩ : LineEnt)],
          if rem ≥ 3 * inc then c + 3 else c + 2)) :=
  connect_via_half_spec u c epr ep inc ln w inside cw conn arcs lines
    hdist hangle

/-- Claim C3 witness: the half-circle characterization applied at a concrete
inside connection whose gates hold; the bridge then consumes exactly two
identifiers (half arc and closing line). -/
theorem c3_half_circle_step_witness :
    ((connect_via (fun n => n) 0 2 ⟨2, 0⟩ (1/5) ("F") 1 true true ⟨-3, 0, 0⟩
        [] []).1).length = 1 := by
  have hp3 : (⟨(-3 : ℝ), 0⟩ : P2D) = get_point_on_circle (-90) 3 := by
    rw [pc_neg90]
  have hp2 : (⟨-(2 : ℝ), -(0 : ℝ)⟩ : P2D) = get_point_on_circle (-90) 2 := by
    rw [pc_neg90]
    norm_num
  have hdist : get_point_distance ⟨2, 0⟩ ⟨(-3 : ℝ), 0⟩ ≥ 3 * (1/5) := by
    rw [get_point_distance]
    rw [show ((2 : ℝ) - -3) ^ 2 + ((0 : ℝ) - 0) ^ 2 = 5 ^ 2 by norm_num]
    rw [Real.sqrt_sq (by norm_num)]
    norm_num
  have hnear : get_point_radius_reduced ⟨(-3 : ℝ), 0⟩
      (if true then (2 : ℝ) - 1/5 else 2 + 1/5) = ⟨-(2 - 1/5 : ℝ), 0⟩ := by
    rw [if_pos rfl, hp3, reduce_pc (-90) (2 - 1/5) (by norm_num), pc_neg90]
  have hangle : get_angle_degree_between ⟨2, 0⟩
      (get_point_radius_reduced ⟨(-3 : ℝ), 0⟩
        (if true then (2 : ℝ) - 1/5 else 2 + 1/5)) (true == true) ≥ 180 := by
    rw [hnear]
    rw [show ((true == true) : Bool) = true from rfl]
    rw [gadb_pos_neg_x (by norm_num : (0:ℝ) < 2) (by norm_num : (0:ℝ) < 2 - 1/5)]
  rw [c3_half_circle_step (fun n => n) 0 2 ⟨2, 0⟩ (1/5) ("F") 1
    true true ⟨-3, 0, 0⟩ [] [] hdist hangle]
  dsimp only
  simp only [eq_self_iff_true, if_true]
  have hopp : get_point_radius_reduced ⟨-(2 : ℝ), -(0 : ℝ)⟩
      ((2 : ℝ) - 1/5) = ⟨-(2 - 1/5 : ℝ), 0⟩ := by
    rw [hp2, reduce_pc (-90) (2 - 1/5) (by norm_num), pc_neg90]
  have hnear2 : get_point_radius_reduced ⟨(-3 : ℝ), 0⟩ ((2 : ℝ) - 1/5)
      = ⟨-(2 - 1/5 : ℝ), 0⟩ := by
    rw [hp3, reduce_pc (-90) (2 - 1/5) (by norm_num), pc_neg90]
  rw [hopp, hnear2, gadb_self]
  rw [if_neg (by norm_num : ¬ ((0 : ℝ) ≥ 3 * (1/5)))]
  simp

/-! ### Shape lemmas for the remaining connect_via regimes -/

theorem connect_via_no_bridge (u : ℕ → ℕ) (c : ℕ) (epr : ℝ) (ep : P2D)
    (inc : ℝ) (ln : String) (w : ℝ) (inside cw : Bool) (conn : Connector)
    (arcs : List ArcEnt) (lines : List LineEnt)
    (hdist : ¬ (get_point_distance ep ⟨conn.x, conn.y⟩ ≥ 3 * inc)) :
    connect_via u c epr ep inc ln w inside cw conn arcs lines
      = (arcs, lines ++ [(⟨ep, ⟨conn.x, conn.y⟩, w, ln, u c⟩ : LineEnt)],
         c + 1) := by
  simp only [connect_via, line]
  rw [if_neg hdist]

theorem connect_via_partial_only (u : ℕ → ℕ) (c : ℕ) (epr : ℝ) (ep : P2D)
    (inc : ℝ) (ln : String) (w : ℝ) (inside cw : Bool) (conn : Connector)
    (arcs : List ArcEnt) (lines : List LineEnt)
    (hdist : get_point_distance ep ⟨conn.x, conn.y⟩ ≥ 3 * inc)
    (hlt : ¬ (get_angle_degree_between ep
        (get_point_radius_reduced ⟨conn.x, conn.y⟩
          (if inside then epr - inc else epr + inc)) (inside == cw) ≥ 180))
    (hge : get_angle_degree_between ep
        (get_point_radius_reduced ⟨conn.x, conn.y⟩
          (if inside then epr - inc else epr + inc)) (inside == cw)
        ≥ 3 * inc) :
    connect_via u c epr ep inc ln w inside cw conn arcs lines
      = (let target := if inside then epr - inc else epr + inc
         let nearest := get_point_radius_reduced ⟨conn.x, conn.y⟩ target
         (arcs ++ [(⟨ep, get_circle_section_centerpoint ep nearest
              ((target - epr) / 2 + epr), nearest, w, ln, !(inside == cw),
            u c⟩ : ArcEnt)],
          lines ++ [(⟨nearest, ⟨conn.x, conn.y⟩, w, ln, u (c + 1)⟩ : LineEnt)],
          c + 2)) := by
  simp only [connect_via, arc, line]
  rw [if_pos hdist, if_neg hlt]
  dsimp only
  rw [if_pos hge]

/-! ### Concrete five-layer instance used for the direction-flip analysis -/

theorem sin_radians_zero : Real.sin (radians 0) = 0 := by
  rw [show radians 0 = 0 by rw [radians]; ring, Real.sin_zero]

theorem sin_radians_120 : Real.sin (radians 120) = Real.sqrt 3 / 2 := by
  rw [show radians 120 = Real.pi - Real.pi / 3 by rw [radians]; ring,
    Real.sin_pi_sub, Real.sin_pi_div_three]

theorem sin_radians_180 : Real.sin (radians 180) = 0 := by
  rw [show radians 180 = Real.pi by rw [radians]; ring, Real.sin_pi]

theorem sin_radians_240 : Real.sin (radians 240) = -(Real.sqrt 3 / 2) := by
  rw [show radians 240 = Real.pi / 3 + Real.pi by rw [radians]; ring,
    Real.sin_add_pi, Real.sin_pi_div_three]

theorem sqrt_sixteen_sq : Real.sqrt ((16 : ℝ) ^ 2 - (0 * 16) ^ 2) = 16 := by
  rw [show ((16 : ℝ) ^ 2 - (0 * 16) ^ 2) = 16 ^ 2 by norm_num]
  exact Real.sqrt_sq (by norm_num)

theorem sqrt_twentyfour_sq :
    Real.sqrt ((24 : ℝ) ^ 2 - (0 * 24) ^ 2) = 24 := by
  rw [show ((24 : ℝ) ^ 2 - (0 * 24) ^ 2) = 24 ^ 2 by norm_num]
  exact Real.sqrt_sq (by norm_num)

theorem sqrt_via120 :
    Real.sqrt ((16 : ℝ) ^ 2 - (Real.sqrt 3 / 2 * 16) ^ 2) = 8 := by
  rw [show ((16 : ℝ) ^ 2 - (Real.sqrt 3 / 2 * 16) ^ 2) = 8 ^ 2 by
    nlinarith [Real.sq_sqrt (show (0:ℝ) ≤ 3 by norm_num)]]
  exact Real.sqrt_sq (by norm_num)

theorem sqrt_via240 :
    Real.sqrt ((16 : ℝ) ^ 2 - (-(Real.sqrt 3 / 2) * 16) ^ 2) = 8 := by
  rw [show ((16 : ℝ) ^ 2 - (-(Real.sqrt 3 / 2) * 16) ^ 2) = 8 ^ 2 by
    nlinarith [Real.sq_sqrt (show (0:ℝ) ≤ 3 by norm_num)]]
  exact Real.sqrt_sq (by norm_num)

theorem conns5_eval (u : ℕ → ℕ) (c : ℕ) (dr : ℝ) :
    (generate_vias u c 40 1 1 1 1 dr 5).2.1
      = [⟨16, 0, 0⟩, ⟨24, 0, 0⟩, ⟨-8, 8 * Real.sqrt 3, 120⟩, ⟨-24, 0, 180⟩,
         ⟨-8, -(8 * Real.sqrt 3), 240⟩] := by
  have hnum : get_num_vias 5 = (3, 2) := by decide
  have hrad : get_via_radius 40 1 1 1 1 = (16, 24) := by
    rw [get_via_radius, Prod.mk.injEq]
    norm_num
  simp only [generate_vias, hnum, hrad]
  rw [show List.range ((3, 2).1 + (3, 2).2) = [0, 1, 2, 3, 4] from rfl]
  simp only [List.map_cons, List.map_nil]
  norm_num
  refine ⟨⟨?_, ?_⟩, ⟨?_, ?_⟩, ⟨?_, ?_⟩, ⟨?_, ?_⟩, ?_, ?_⟩
  · rw [sin_radians_zero,
      show (256 : ℝ) - ((0 : ℝ) * 16) ^ 2 = 16 ^ 2 by norm_num]
    exact Real.sqrt_sq (by norm_num)
  · exact sin_radians_zero
  · rw [sin_radians_zero,
      show (576 : ℝ) - ((0 : ℝ) * 24) ^ 2 = 24 ^ 2 by norm_num]
    exact Real.sqrt_sq (by norm_num)
  · exact sin_radians_zero
  · rw [sin_radians_120,
      show (256 : ℝ) - (Real.sqrt 3 / 2 * 16) ^ 2 = 8 ^ 2 by
        nlinarith [Real.sq_sqrt (show (0:ℝ) ≤ 3 by norm_num)]]
    exact Real.sqrt_sq (by norm_num)
  · rw [sin_radians_120]
    ring
  · rw [sin_radians_180,
      show (576 : ℝ) - ((0 : ℝ) * 24) ^ 2 = 24 ^ 2 by norm_num]
    exact Real.sqrt_sq (by norm_num)
  · exact sin_radians_180
  · rw [sin_radians_240,
      show (256 : ℝ) - (-(Real.sqrt 3 / 2) * 16) ^ 2 = 8 ^ 2 by
        nlinarith [Real.sq_sqrt (show (0:ℝ) ≤ 3 by norm_num)]]
    exact Real.sqrt_sq (by norm_num)
  · rw [sin_radians_240]
    ring

theorem gadb_of_angles (pa pb : P2D) (cwb : Bool) (A B : ℝ)
    (hA : get_angle_degree_of_point pa = A)
    (hB : get_angle_degree_of_point pb = B) :
    get_angle_degree_between pa pb cwb
      = (let A2 := if A < 0 then 360 + A else A
         let B2 := if B < 0 then 360 + B else B
         let r1 := if A2 - B2 < 0 then 360 + (A2 - B2) else A2 - B2
         let r2 := if !cwb then 360 - r1 else r1
         if r2 = 360 then 0 else r2) := by
  unfold get_angle_degree_between
  rw [hA, hB]

theorem proj_c2_17 :
    get_point_radius_reduced ⟨(-8 : ℝ), 8 * Real.sqrt 3⟩ 17
      = get_point_on_circle (-30) 17 := by
  rw [show (⟨(-8 : ℝ), 8 * Real.sqrt 3⟩ : P2D) = get_point_on_circle (-30) 16
      by rw [pc_neg30, P2D.mk.injEq]; constructor <;> ring]
  rw [reduce_pc (-30) 17 (by norm_num : (0:ℝ) < 16)]

theorem proj_c4_17 :
    get_point_radius_reduced ⟨(-8 : ℝ), -(8 * Real.sqrt 3)⟩ 17
      = get_point_on_circle (-150) 17 := by
  rw [show (⟨(-8 : ℝ), -(8 * Real.sqrt 3)⟩ : P2D)
        = get_point_on_circle (-150) 16
      by rw [pc_neg150, P2D.mk.injEq]; constructor <;> ring]
  rw [reduce_pc (-150) 17 (by norm_num : (0:ℝ) < 16)]

theorem proj_c3_23 :
    get_point_radius_reduced ⟨(-24 : ℝ), 0⟩ 23 = ⟨-23, 0⟩ := by
  rw [show (⟨(-24 : ℝ), 0⟩ : P2D) = get_point_on_circle (-90) 24
      by rw [pc_neg90]]
  rw [reduce_pc (-90) 23 (by norm_num : (0:ℝ) < 24), pc_neg90]

theorem proj_opp19_17 :
    get_point_radius_reduced ⟨-(19 : ℝ), -(0 : ℝ)⟩ 17 = ⟨-17, 0⟩ := by
  rw [show (⟨-(19 : ℝ), -(0 : ℝ)⟩ : P2D) = get_point_on_circle (-90) 19
      by rw [pc_neg90]; norm_num]
  rw [reduce_pc (-90) 17 (by norm_num : (0:ℝ) < 19), pc_neg90]

theorem proj_opp21_21 :
    get_point_radius_reduced ⟨-(21 : ℝ), -(0 : ℝ)⟩ 21 = ⟨-21, 0⟩ := by
  rw [show (⟨-(21 : ℝ), -(0 : ℝ)⟩ : P2D) = get_point_on_circle (-90) 21
      by rw [pc_neg90]; norm_num]
  rw [reduce_pc (-90) 21 (by norm_num : (0:ℝ) < 21), pc_neg90]

theorem angleOf_pc_neg30_17 :
    get_angle_degree_of_point (get_point_on_circle (-30) 17) = -30 :=
  angleOf_pc (-30) 17 (by norm_num) (by norm_num) (by norm_num)

theorem angleOf_pc_neg150_17 :
    get_angle_degree_of_point (get_point_on_circle (-150) 17) = -150 :=
  angleOf_pc (-150) 17 (by norm_num) (by norm_num) (by norm_num)

theorem gadb_19_c2_t :
    get_angle_degree_between ⟨19, 0⟩ (get_point_on_circle (-30) 17) true
      = 120 := by
  rw [gadb_of_angles _ _ _ 90 (-30) (angleOf_pos_x (by norm_num))
    angleOf_pc_neg30_17]
  norm_num

theorem gadb_19_c2_f :
    get_angle_degree_between ⟨19, 0⟩ (get_point_on_circle (-30) 17) false
      = 240 := by
  rw [gadb_of_angles _ _ _ 90 (-30) (angleOf_pos_x (by norm_num))
    angleOf_pc_neg30_17]
  norm_num

theorem gadb_opp_c2_f :
    get_angle_degree_between ⟨-17, 0⟩ (get_point_on_circle (-30) 17) false
      = 60 := by
  rw [gadb_of_angles _ _ _ (-90) (-30) (angleOf_neg_x (by norm_num))
    angleOf_pc_neg30_17]
  norm_num

theorem gadb_19_c4_t :
    get_angle_degree_between ⟨19, 0⟩ (get_point_on_circle (-150) 17) true
      = 240 := by
  rw [gadb_of_angles _ _ _ 90 (-150) (angleOf_pos_x (by norm_num))
    angleOf_pc_neg150_17]
  norm_num

theorem gadb_19_c4_f :
    get_angle_degree_between ⟨19, 0⟩ (get_point_on_circle (-150) 17) false
      = 120 := by
  rw [gadb_of_angles _ _ _ 90 (-150) (angleOf_pos_x (by norm_num))
    angleOf_pc_neg150_17]
  norm_num

theorem gadb_opp_c4_t :
    get_angle_degree_between ⟨-17, 0⟩ (get_point_on_circle (-150) 17) true
      = 60 := by
  rw [gadb_of_angles _ _ _ (-90) (-150) (angleOf_neg_x (by norm_num))
    angleOf_pc_neg150_17]
  norm_num

theorem gadb_21_c3_t :
    get_angle_degree_between ⟨21, 0⟩ ⟨-23, 0⟩ true = 180 := by
  rw [gadb_of_angles _ _ _ 90 (-90) (angleOf_pos_x (by norm_num))
    (angleOf_neg_x (by norm_num))]
  norm_num

theorem gadb_21_c3_f :
    get_angle_degree_between ⟨21, 0⟩ ⟨-23, 0⟩ false = 180 := by
  rw [gadb_of_angles _ _ _ 90 (-90) (angleOf_pos_x (by norm_num))
    (angleOf_neg_x (by norm_num))]
  norm_num

theorem gadb_opp21_c3_t :
    get_angle_degree_between ⟨-21, 0⟩ ⟨-23, 0⟩ true = 0 := by
  rw [gadb_of_angles _ _ _ (-90) (-90) (angleOf_neg_x (by norm_num))
    (angleOf_neg_x (by norm_num))]
  norm_num

theorem gadb_opp21_c3_f :
    get_angle_degree_between ⟨-21, 0⟩ ⟨-23, 0⟩ false = 0 := by
  rw [gadb_of_angles _ _ _ (-90) (-90) (angleOf_neg_x (by norm_num))
    (angleOf_neg_x (by norm_num))]
  norm_num

theorem dist_19_16 : get_point_distance ⟨19, 0⟩ ⟨(16 : ℝ), 0⟩ = 3 := by
  rw [get_point_distance,
    show ((19 : ℝ) - 16) ^ 2 + ((0 : ℝ) - 0) ^ 2 = 3 ^ 2 by norm_num]
  exact Real.sqrt_sq (by norm_num)

theorem dist_21_24 : get_point_distance ⟨21, 0⟩ ⟨(24 : ℝ), 0⟩ = 3 := by
  rw [get_point_distance,
    show ((21 : ℝ) - 24) ^ 2 + ((0 : ℝ) - 0) ^ 2 = 3 ^ 2 by norm_num]
  exact Real.sqrt_sq (by norm_num)

theorem dist_19_c2 :
    get_point_distance ⟨19, 0⟩ ⟨(-8 : ℝ), 8 * Real.sqrt 3⟩ ≥ 6 := by
  rw [get_point_distance,
    show ((19 : ℝ) - -8) ^ 2 + ((0 : ℝ) - 8 * Real.sqrt 3) ^ 2 = 921 by
      nlinarith [Real.sq_sqrt (show (0:ℝ) ≤ 3 by norm_num)]]
  exact (Real.le_sqrt (by norm_num) (by norm_num)).mpr (by norm_num)

theorem dist_19_c4 :
    get_point_distance ⟨19, 0⟩ ⟨(-8 : ℝ), -(8 * Real.sqrt 3)⟩ ≥ 6 := by
  rw [get_point_distance,
    show ((19 : ℝ) - -8) ^ 2 + ((0 : ℝ) - -(8 * Real.sqrt 3)) ^ 2 = 921 by
      nlinarith [Real.sq_sqrt (show (0:ℝ) ≤ 3 by norm_num)]]
  exact (Real.le_sqrt (by norm_num) (by norm_num)).mpr (by norm_num)

theorem dist_21_c3 :
    get_point_distance ⟨21, 0⟩ ⟨(-24 : ℝ), 0⟩ ≥ 6 := by
  rw [get_point_distance,
    show ((21 : ℝ) - -24) ^ 2 + ((0 : ℝ) - 0) ^ 2 = 45 ^ 2 by norm_num]
  rw [Real.sqrt_sq (by norm_num)]
  norm_num

theorem connect_via_arcs_len_no (u : ℕ → ℕ) (c : ℕ) (epr : ℝ) (ep : P2D)
    (inc : ℝ) (ln : String) (w : ℝ) (inside cw : Bool) (conn : Connector)
    (arcs : List ArcEnt) (lines : List LineEnt)
    (hdist : ¬ (get_point_distance ep ⟨conn.x, conn.y⟩ ≥ 3 * inc)) :
    ((connect_via u c epr ep inc ln w inside cw conn arcs lines).1).length
      = arcs.length := by
  rw [connect_via_no_bridge u c epr ep inc ln w inside cw conn arcs lines
    hdist]

theorem connect_via_arcs_len_part (u : ℕ → ℕ) (c : ℕ) (epr : ℝ) (ep : P2D)
    (inc : ℝ) (ln : String) (w : ℝ) (inside cw : Bool) (conn : Connector)
    (arcs : List ArcEnt) (lines : List LineEnt)
    (hdist : get_point_distance ep ⟨conn.x, conn.y⟩ ≥ 3 * inc)
    (hlt : ¬ (get_angle_degree_between ep
        (get_point_radius_reduced ⟨conn.x, conn.y⟩
          (if inside then epr - inc else epr + inc)) (inside == cw) ≥ 180))
    (hge : get_angle_degree_between ep
        (get_point_radius_reduced ⟨conn.x, conn.y⟩
          (if inside then epr - inc else epr + inc)) (inside == cw)
        ≥ 3 * inc) :
    ((connect_via u c epr ep inc ln w inside cw conn arcs lines).1).length
      = arcs.length + 1 := by
  rw [connect_via_partial_only u c epr ep inc ln w inside cw conn arcs lines
    hdist hlt hge]
  simp

theorem connect_via_arcs_len_half_part (u : ℕ → ℕ) (c : ℕ) (epr : ℝ)
    (ep : P2D) (inc : ℝ) (ln : String) (w : ℝ) (inside cw : Bool)
    (conn : Connector) (arcs : List ArcEnt) (lines : List LineEnt)
    (hdist : get_point_distance ep ⟨conn.x, conn.y⟩ ≥ 3 * inc)
    (hangle : get_angle_degree_between ep
        (get_point_radius_reduced ⟨conn.x, conn.y⟩
          (if inside then epr - inc else epr + inc)) (inside == cw) ≥ 180)
    (hrem : get_angle_degree_between
        (get_point_radius_reduced ⟨-ep.x, -ep.y⟩
          (if inside then (if inside then epr - inc else epr + inc)
           else (if inside then epr - inc else epr + inc) - inc))
        (get_point_radius_reduced ⟨conn.x, conn.y⟩
          (if inside then epr - inc else epr + inc)) (inside == cw)
        ≥ 3 * inc) :
    ((connect_via u c epr ep inc ln w inside cw conn arcs lines).1).length
      = arcs.length + 2 := by
  rw [connect_via_half_spec u c epr ep inc ln w inside cw conn arcs lines
    hdist hangle]
  dsimp only
  rw [if_pos hrem]
  simp

theorem connect_via_arcs_len_half_only (u : ℕ → ℕ) (c : ℕ) (epr : ℝ)
    (ep : P2D) (inc : ℝ) (ln : String) (w : ℝ) (inside cw : Bool)
    (conn : Connector) (arcs : List ArcEnt) (lines : List LineEnt)
    (hdist : get_point_distance ep ⟨conn.x, conn.y⟩ ≥ 3 * inc)
    (hangle : get_angle_degree_between ep
        (get_point_radius_reduced ⟨conn.x, conn.y⟩
          (if inside then epr - inc else epr + inc)) (inside == cw) ≥ 180)
    (hrem : ¬ (get_angle_degree_between
        (get_point_radius_reduced ⟨-ep.x, -ep.y⟩
          (if inside then (if inside then epr - inc else epr + inc)
           else (if inside then epr - inc else epr + inc) - inc))
        (get_point_radius_reduced ⟨conn.x, conn.y⟩
          (if inside then epr - inc else epr + inc)) (inside == cw)
        ≥ 3 * inc)) :
    ((connect_via u c epr ep inc ln w inside cw conn arcs lines).1).length
      = arcs.length + 1 := by
  rw [connect_via_half_spec u c epr ep inc ln w inside cw conn arcs lines
    hdist hangle]
  dsimp only
  rw [if_neg hrem]
  simp

theorem l5_layer0 (u : ℕ → ℕ) (cw : Bool) (ns : List String)
    (arcs : List ArcEnt) (lines : List LineEnt) (c : ℕ) :
    ((spiral_layer u cw 5 1 1 1 19 ns
        [⟨16, 0, 0⟩, ⟨24, 0, 0⟩, ⟨-8, 8 * Real.sqrt 3, 120⟩, ⟨-24, 0, 180⟩,
         ⟨-8, -(8 * Real.sqrt 3), 240⟩] 0 arcs lines c).1).length
      = arcs.length + 2 := by
  simp only [spiral_layer]
  rw [show List.range 1 = [0] from rfl]
  simp only [List.foldl_cons, List.foldl_nil]
  norm_num [List.getD]
  rw [connect_via_arcs_len_no]
  · simp [loop, arc]
  · dsimp only
    rw [dist_19_16]
    norm_num

theorem l5_layer1 (u : ℕ → ℕ) (cw : Bool) (ns : List String)
    (arcs : List ArcEnt) (lines : List LineEnt) (c : ℕ) :
    ((spiral_layer u cw 5 1 1 1 19 ns
        [⟨16, 0, 0⟩, ⟨24, 0, 0⟩, ⟨-8, 8 * Real.sqrt 3, 120⟩, ⟨-24, 0, 180⟩,
         ⟨-8, -(8 * Real.sqrt 3), 240⟩] 1 arcs lines c).1).length
      = arcs.length + 2 := by
  simp only [spiral_layer]
  rw [show List.range 1 = [0] from rfl]
  simp only [List.foldl_cons, List.foldl_nil]
  norm_num [List.getD]
  rw [connect_via_arcs_len_no, connect_via_arcs_len_no]
  · simp [loop, arc]
  · dsimp only
    rw [dist_19_16]
    norm_num
  · dsimp only
    rw [dist_21_24]
    norm_num

theorem l5_layer2_t (u : ℕ → ℕ) (ns : List String)
    (arcs : List ArcEnt) (lines : List LineEnt) (c : ℕ) :
    ((spiral_layer u true 5 1 1 1 19 ns
        [⟨16, 0, 0⟩, ⟨24, 0, 0⟩, ⟨-8, 8 * Real.sqrt 3, 120⟩, ⟨-24, 0, 180⟩,
         ⟨-8, -(8 * Real.sqrt 3), 240⟩] 2 arcs lines c).1).length
      = arcs.length + 3 := by
  simp only [spiral_layer]
  rw [show List.range 1 = [0] from rfl]
  simp only [List.foldl_cons, List.foldl_nil]
  norm_num [List.getD]
  rw [connect_via_arcs_len_part, connect_via_arcs_len_no]
  · simp [loop, arc]
  · dsimp only
    rw [dist_21_24]
    norm_num
  · dsimp only
    linarith [dist_19_c2]
  · dsimp only
    simp only [reduceIte, Bool.true_beq, Bool.false_beq, Bool.not_true,
      Bool.not_false, Bool.false_eq_true, if_false, if_true]
    rw [show (19 : ℝ) - 2 = 17 by norm_num, proj_c2_17, gadb_19_c2_t]
    norm_num
  · dsimp only
    simp only [reduceIte, Bool.true_beq, Bool.false_beq, Bool.not_true,
      Bool.not_false, Bool.false_eq_true, if_false, if_true]
    rw [show (19 : ℝ) - 2 = 17 by norm_num, proj_c2_17, gadb_19_c2_t]
    norm_num

theorem l5_layer2_f (u : ℕ → ℕ) (ns : List String)
    (arcs : List ArcEnt) (lines : List LineEnt) (c : ℕ) :
    ((spiral_layer u false 5 1 1 1 19 ns
        [⟨16, 0, 0⟩, ⟨24, 0, 0⟩, ⟨-8, 8 * Real.sqrt 3, 120⟩, ⟨-24, 0, 180⟩,
         ⟨-8, -(8 * Real.sqrt 3), 240⟩] 2 arcs lines c).1).length
      = arcs.length + 4 := by
  simp only [spiral_layer]
  rw [show List.range 1 = [0] from rfl]
  simp only [List.foldl_cons, List.foldl_nil]
  norm_num [List.getD]
  rw [connect_via_arcs_len_half_part, connect_via_arcs_len_no]
  · simp [loop, arc]
  · dsimp only
    rw [dist_21_24]
    norm_num
  · dsimp only
    linarith [dist_19_c2]
  · dsimp only
    simp only [reduceIte, Bool.true_beq, Bool.false_beq, Bool.not_true,
      Bool.not_false, Bool.false_eq_true, if_false, if_true]
    rw [show (19 : ℝ) - 2 = 17 by norm_num, proj_c2_17, gadb_19_c2_f]
    norm_num
  · dsimp only
    simp only [reduceIte, Bool.true_beq, Bool.false_beq, Bool.not_true,
      Bool.not_false, Bool.false_eq_true, if_false, if_true]
    rw [show (19 : ℝ) - 2 = 17 by norm_num, proj_opp19_17, proj_c2_17,
      gadb_opp_c2_f]
    norm_num

theorem l5_layer3_t (u : ℕ → ℕ) (ns : List String)
    (arcs : List ArcEnt) (lines : List LineEnt) (c : ℕ) :
    ((spiral_layer u true 5 1 1 1 19 ns
        [⟨16, 0, 0⟩, ⟨24, 0, 0⟩, ⟨-8, 8 * Real.sqrt 3, 120⟩, ⟨-24, 0, 180⟩,
         ⟨-8, -(8 * Real.sqrt 3), 240⟩] 3 arcs lines c).1).length
      = arcs.length + 5 := by
  simp only [spiral_layer]
  rw [show List.range 1 = [0] from rfl]
  simp only [List.foldl_cons, List.foldl_nil]
  norm_num [List.getD]
  rw [connect_via_arcs_len_half_only, connect_via_arcs_len_half_part]
  · simp [loop, arc]
  · dsimp only
    linarith [dist_19_c2]
  · dsimp only
    simp only [reduceIte, Bool.true_beq, Bool.false_beq, Bool.not_true,
      Bool.not_false, Bool.false_eq_true, if_false, if_true]
    rw [show (19 : ℝ) - 2 = 17 by norm_num, proj_c2_17, gadb_19_c2_f]
    norm_num
  · dsimp only
    simp only [reduceIte, Bool.true_beq, Bool.false_beq, Bool.not_true,
      Bool.not_false, Bool.false_eq_true, if_false, if_true]
    rw [show (19 : ℝ) - 2 = 17 by norm_num, proj_opp19_17, proj_c2_17,
      gadb_opp_c2_f]
    norm_num
  · dsimp only
    linarith [dist_21_c3]
  · dsimp only
    simp only [reduceIte, Bool.true_beq, Bool.false_beq, Bool.not_true,
      Bool.not_false, Bool.false_eq_true, if_false, if_true]
    rw [show (21 : ℝ) + 2 = 23 by norm_num, proj_c3_23, gadb_21_c3_t]
  · dsimp only
    simp only [reduceIte, Bool.true_beq, Bool.false_beq, Bool.not_true,
      Bool.not_false, Bool.false_eq_true, if_false, if_true]
    rw [show (21 : ℝ) + 2 - 2 = 21 by norm_num,
      show (21 : ℝ) + 2 = 23 by norm_num, proj_opp21_21, proj_c3_23,
      gadb_opp21_c3_t]
    norm_num

theorem l5_layer3_f (u : ℕ → ℕ) (ns : List String)
    (arcs : List ArcEnt) (lines : List LineEnt) (c : ℕ) :
    ((spiral_layer u false 5 1 1 1 19 ns
        [⟨16, 0, 0⟩, ⟨24, 0, 0⟩, ⟨-8, 8 * Real.sqrt 3, 120⟩, ⟨-24, 0, 180⟩,
         ⟨-8, -(8 * Real.sqrt 3), 240⟩] 3 arcs lines c).1).length
      = arcs.length + 4 := by
  simp only [spiral_layer]
  rw [show List.range 1 = [0] from rfl]
  simp only [List.foldl_cons, List.foldl_nil]
  norm_num [List.getD]
  rw [connect_via_arcs_len_half_only, connect_via_arcs_len_part]
  · simp [loop, arc]
  · dsimp only
    linarith [dist_19_c2]
  · dsimp only
    simp only [reduceIte, Bool.true_beq, Bool.false_beq, Bool.not_true,
      Bool.not_false, Bool.false_eq_true, if_false, if_true]
    rw [show (19 : ℝ) - 2 = 17 by norm_num, proj_c2_17, gadb_19_c2_t]
    norm_num
  · dsimp only
    simp only [reduceIte, Bool.true_beq, Bool.false_beq, Bool.not_true,
      Bool.not_false, Bool.false_eq_true, if_false, if_true]
    rw [show (19 : ℝ) - 2 = 17 by norm_num, proj_c2_17, gadb_19_c2_t]
    norm_num
  · dsimp only
    linarith [dist_21_c3]
  · dsimp only
    simp only [reduceIte, Bool.true_beq, Bool.false_beq, Bool.not_true,
      Bool.not_false, Bool.false_eq_true, if_false, if_true]
    rw [show (21 : ℝ) + 2 = 23 by norm_num, proj_c3_23, gadb_21_c3_f]
  · dsimp only
    simp only [reduceIte, Bool.true_beq, Bool.false_beq, Bool.not_true,
      Bool.not_false, Bool.false_eq_true, if_false, if_true]
    rw [show (21 : ℝ) + 2 - 2 = 21 by norm_num,
      show (21 : ℝ) + 2 = 23 by norm_num, proj_opp21_21, proj_c3_23,
      gadb_opp21_c3_f]
    norm_num

theorem l5_layer4_t (u : ℕ → ℕ) (ns : List String)
    (arcs : List ArcEnt) (lines : List LineEnt) (c : ℕ) :
    ((spiral_layer u true 5 1 1 1 19 ns
        [⟨16, 0, 0⟩, ⟨24, 0, 0⟩, ⟨-8, 8 * Real.sqrt 3, 120⟩, ⟨-24, 0, 180⟩,
         ⟨-8, -(8 * Real.sqrt 3), 240⟩] 4 arcs lines c).1).length
      = arcs.length + 5 := by
  simp only [spiral_layer]
  rw [show List.range 1 = [0] from rfl]
  simp only [List.foldl_cons, List.foldl_nil]
  norm_num [List.getD]
  rw [connect_via_arcs_len_half_part, connect_via_arcs_len_half_only]
  · simp [loop, arc]
  · dsimp only
    linarith [dist_21_c3]
  · dsimp only
    simp only [reduceIte, Bool.true_beq, Bool.false_beq, Bool.not_true,
      Bool.not_false, Bool.false_eq_true, if_false, if_true]
    rw [show (21 : ℝ) + 2 = 23 by norm_num, proj_c3_23, gadb_21_c3_f]
  · dsimp only
    simp only [reduceIte, Bool.true_beq, Bool.false_beq, Bool.not_true,
      Bool.not_false, Bool.false_eq_true, if_false, if_true]
    rw [show (21 : ℝ) + 2 - 2 = 21 by norm_num,
      show (21 : ℝ) + 2 = 23 by norm_num, proj_opp21_21, proj_c3_23,
      gadb_opp21_c3_f]
    norm_num
  · dsimp only
    linarith [dist_19_c4]
  · dsimp only
    simp only [reduceIte, Bool.true_beq, Bool.false_beq, Bool.not_true,
      Bool.not_false, Bool.false_eq_true, if_false, if_true]
    rw [show (19 : ℝ) - 2 = 17 by norm_num, proj_c4_17, gadb_19_c4_t]
    norm_num
  · dsimp only
    simp only [reduceIte, Bool.true_beq, Bool.false_beq, Bool.not_true,
      Bool.not_false, Bool.false_eq_true, if_false, if_true]
    rw [show (19 : ℝ) - 2 = 17 by norm_num, proj_opp19_17, proj_c4_17,
      gadb_opp_c4_t]
    norm_num

theorem l5_layer4_f (u : ℕ → ℕ) (ns : List String)
    (arcs : List ArcEnt) (lines : List LineEnt) (c : ℕ) :
    ((spiral_layer u false 5 1 1 1 19 ns
        [⟨16, 0, 0⟩, ⟨24, 0, 0⟩, ⟨-8, 8 * Real.sqrt 3, 120⟩, ⟨-24, 0, 180⟩,
         ⟨-8, -(8 * Real.sqrt 3), 240⟩] 4 arcs lines c).1).length
      = arcs.length + 4 := by
  simp only [spiral_layer]
  rw [show List.range 1 = [0] from rfl]
  simp only [List.foldl_cons, List.foldl_nil]
  norm_num [List.getD]
  rw [connect_via_arcs_len_part, connect_via_arcs_len_half_only]
  · simp [loop, arc]
  · dsimp only
    linarith [dist_21_c3]
  · dsimp only
    simp only [reduceIte, Bool.true_beq, Bool.false_beq, Bool.not_true,
      Bool.not_false, Bool.false_eq_true, if_false, if_true]
    rw [show (21 : ℝ) + 2 = 23 by norm_num, proj_c3_23, gadb_21_c3_t]
  · dsimp only
    simp only [reduceIte, Bool.true_beq, Bool.false_beq, Bool.not_true,
      Bool.not_false, Bool.false_eq_true, if_false, if_true]
    rw [show (21 : ℝ) + 2 - 2 = 21 by norm_num,
      show (21 : ℝ) + 2 = 23 by norm_num, proj_opp21_21, proj_c3_23,
      gadb_opp21_c3_t]
    norm_num
  · dsimp only
    linarith [dist_19_c4]
  · dsimp only
    simp only [reduceIte, Bool.true_beq, Bool.false_beq, Bool.not_true,
      Bool.not_false, Bool.false_eq_true, if_false, if_true]
    rw [show (19 : ℝ) - 2 = 17 by norm_num, proj_c4_17, gadb_19_c4_f]
    norm_num
  · dsimp only
    simp only [reduceIte, Bool.true_beq, Bool.false_beq, Bool.not_true,
      Bool.not_false, Bool.false_eq_true, if_false, if_true]
    rw [show (19 : ℝ) - 2 = 17 by norm_num, proj_c4_17, gadb_19_c4_f]
    norm_num

theorem generate_arcs_proj (u : ℕ → ℕ) (L : ℕ) (cw : Bool) (T : ℕ)
    (w s vd dr D : ℝ) (nm : String) (ns : List String) :
    (generate u L cw T w s vd dr D nm ns).arcs
      = (generate_coil_spiral u cw L w s T D ns
          (generate_vias u 0 D T w s vd dr L).2.1
          (generate_vias u 0 D T w s vd dr L).2.2).1 := rfl

theorem gcs5_arcs_cw (u : ℕ → ℕ) (ns : List String) (c : ℕ) :
    ((generate_coil_spiral u true 5 1 1 1 40 ns
        [⟨16, 0, 0⟩, ⟨24, 0, 0⟩, ⟨-8, 8 * Real.sqrt 3, 120⟩, ⟨-24, 0, 180⟩,
         ⟨-8, -(8 * Real.sqrt 3), 240⟩] c).1).length = 17 := by
  simp only [generate_coil_spiral]
  rw [show List.range 5 = [0, 1, 2, 3, 4] from rfl]
  simp only [List.foldl_cons, List.foldl_nil]
  norm_num
  rw [l5_layer4_t, l5_layer3_t, l5_layer2_t, l5_layer1, l5_layer0]
  simp

theorem gcs5_arcs_ccw (u : ℕ → ℕ) (ns : List String) (c : ℕ) :
    ((generate_coil_spiral u false 5 1 1 1 40 ns
        [⟨16, 0, 0⟩, ⟨24, 0, 0⟩, ⟨-8, 8 * Real.sqrt 3, 120⟩, ⟨-24, 0, 180⟩,
         ⟨-8, -(8 * Real.sqrt 3), 240⟩] c).1).length = 16 := by
  simp only [generate_coil_spiral]
  rw [show List.range 5 = [0, 1, 2, 3, 4] from rfl]
  simp only [List.foldl_cons, List.foldl_nil]
  norm_num
  rw [l5_layer4_f, l5_layer3_f, l5_layer2_f, l5_layer1, l5_layer0]
  simp

theorem generate5_arcs_cw (u : ℕ → ℕ) (dr : ℝ) (nm : String)
    (ns : List String) :
    ((generate u 5 true 1 1 1 1 dr 40 nm ns).arcs).length = 17 := by
  rw [generate_arcs_proj, conns5_eval, gcs5_arcs_cw]

theorem generate5_arcs_ccw (u : ℕ → ℕ) (dr : ℝ) (nm : String)
    (ns : List String) :
    ((generate u 5 false 1 1 1 1 dr 40 nm ns).arcs).length = 16 := by
  rw [generate_arcs_proj, conns5_eval, gcs5_arcs_ccw]

/-- Claim C5 counterexample: with layerCount 5, one layer name per layer,
turns 1, trace width, spacing, via diameter and drill 1 and outer diameter
40, the clockwise run emits 17 arcs while the counter-clockwise run emits
16, so there is no arc-by-arc correspondence that inverts every swap flag:
the run pair refutes the claimed direction regression even though via and
pad counts agree. -/
theorem c5_counterexample :
    ¬ (((generate (fun n => n) 5 false 1 1 1 1 1 40 ("coil")
            ["F.Cu", "In1.Cu", "In2.Cu", "In3.Cu", "B.Cu"]).vias.length
          = (generate (fun n => n) 5 true 1 1 1 1 1 40 ("coil")
              ["F.Cu", "In1.Cu", "In2.Cu", "In3.Cu", "B.Cu"]).vias.length)
      ∧ ((generate (fun n => n) 5 false 1 1 1 1 1 40 ("coil")
            ["F.Cu", "In1.Cu", "In2.Cu", "In3.Cu", "B.Cu"]).pads.length
          = (generate (fun n => n) 5 true 1 1 1 1 1 40 ("coil")
              ["F.Cu", "In1.Cu", "In2.Cu", "In3.Cu", "B.Cu"]).pads.length)
      ∧ ((generate (fun n => n) 5 false 1 1 1 1 1 40 ("coil")
            ["F.Cu", "In1.Cu", "In2.Cu", "In3.Cu", "B.Cu"]).arcs.map
            ArcEnt.swap
          = (generate (fun n => n) 5 true 1 1 1 1 1 40 ("coil")
              ["F.Cu", "In1.Cu", "In2.Cu", "In3.Cu", "B.Cu"]).arcs.map
            (fun a => !a.swap))) := by
  rintro ⟨-, -, h⟩
  have hlen := congrArg List.length h
  simp only [List.length_map] at hlen
  rw [generate5_arcs_cw, generate5_arcs_ccw] at hlen
  norm_num at hlen

/-- Claim C5 (amended): flipping the winding direction leaves the via list
unchanged and the pad count unchanged; it negates the perpendicular
mid-point offset and (for the two actual multipliers 1 and -1) inverts the
swap flag of the two arcs of every spiral loop; and whenever the half-circle
bridge gate fires in both directions, the two bridge arcs emitted by
connect_via share start, stop and mid x-coordinate while the mid
y-offset is negated and the swap flag inverted.  The full arc streams of the
two runs need not correspond one-to-one, because the bridge gate is
direction-dependent. -/
theorem c5_direction_flip (u : ℕ → ℕ) (L : ℕ) (cw : Bool) (T : ℕ)
    (w s vd dr D : ℝ) (nm : String) (ns : List String)
    (c cc : ℕ) (r inc tw : ℝ) (ln : String) (m : ℤ)
    (epr : ℝ) (ep : P2D) (inside cwb : Bool) (conn : Connector)
    (arcs : List ArcEnt) (lines : List LineEnt)
    (hm : m = 1 ∨ m = -1)
    (hdist : get_point_distance ep ⟨conn.x, conn.y⟩ ≥ 3 * inc)
    (hangle1 : get_angle_degree_between ep
        (get_point_radius_reduced ⟨conn.x, conn.y⟩
          (if inside then epr - inc else epr + inc)) (inside == cwb) ≥ 180)
    (hangle2 : get_angle_degree_between ep
        (get_point_radius_reduced ⟨conn.x, conn.y⟩
          (if inside then epr - inc else epr + inc)) (inside == !cwb)
        ≥ 180) :
    ((generate u L cw T w s vd dr D nm ns).vias
        = (generate u L (!cw) T w s vd dr D nm ns).vias)
    ∧ ((generate u L cw T w s vd dr D nm ns).pads.length
        = (generate u L (!cw) T w s vd dr D nm ns).pads.length)
    ∧ ((loop u c r inc tw ln (-m)).1.map (fun a => a.mid.y)
        = (loop u cc r inc tw ln m).1.map (fun a => -(a.mid.y)))
    ∧ ((loop u c r inc tw ln (-m)).1.map ArcEnt.swap
        = (loop u cc r inc tw ln m).1.map (fun a => !a.swap))
    ∧ ∃ (a₁ a₂ : ArcEnt) (t₁ t₂ : List ArcEnt),
        (connect_via u c epr ep inc ln tw inside cwb conn arcs lines).1
          = arcs ++ a₁ :: t₁
        ∧ (connect_via u cc epr ep inc ln tw inside (!cwb) conn arcs
            lines).1 = arcs ++ a₂ :: t₂
        ∧ a₂.start = a₁.start ∧ a₂.stop = a₁.stop ∧ a₂.mid.x = a₁.mid.x
        ∧ a₂.mid.y = -a₁.mid.y ∧ a₂.swap = !a₁.swap := by
  refine ⟨rfl, ?_, ?_, ?_, ?_⟩
  · simp only [generate_pads_proj, generate_pads_pads_len]
  · simp [loop, arc]
  · rcases hm with hm | hm <;> subst hm <;> simp [loop, arc]
  · rw [connect_via_half_spec u c epr ep inc ln tw inside cwb conn arcs
      lines hdist hangle1]
    rw [connect_via_half_spec u cc epr ep inc ln tw inside (!cwb) conn arcs
      lines hdist hangle2]
    dsimp only
    refine ⟨_, _, _, _, rfl, rfl, rfl, rfl, ?_, ?_, ?_⟩ <;>
      cases cwb <;> cases inside <;> simp

theorem c5_direction_flip_witness :
    (loop (fun n => n) 0 19 2 1 ("F") (-(1 : ℤ))).1.map ArcEnt.swap
      = (loop (fun n => n) 0 19 2 1 ("F") 1).1.map (fun a => !a.swap) :=
  (c5_direction_flip (fun n => n) 5 true 1 1 1 1 1 40 ("coil")
    ["F.Cu", "In1.Cu", "In2.Cu", "In3.Cu", "B.Cu"] 0 0
    19 2 1 ("F") 1 21 ⟨21, 0⟩ false true ⟨-24, 0, 180⟩ [] []
    (Or.inl rfl)
    (by dsimp only; linarith [dist_21_c3])
    (by
      simp only [reduceIte, Bool.true_beq, Bool.false_beq, Bool.not_true,
        Bool.not_false, Bool.false_eq_true, if_false, if_true]
      rw [show (21 : ℝ) + 2 = 23 by norm_num, proj_c3_23, gadb_21_c3_f])
    (by
      simp only [reduceIte, Bool.true_beq, Bool.false_beq, Bool.not_true,
        Bool.not_false, Bool.false_eq_true, if_false, if_true]
      rw [show (21 : ℝ) + 2 = 23 by norm_num, proj_c3_23,
        gadb_21_c3_t])).2.2.2.1

end CoilGen
